import Mathlib

/-!
Verification of `mdpredict-russian-rs` against its natural-language
specification.

The Rust sources are shallowly embedded below.  `f64` arithmetic is modelled
by the real numbers `ℝ`; machine strings are modelled by `String`, with all
character-level operations re-implemented over `String.data` (lists of
characters) so that they evaluate inside the kernel.  Byte lengths of UTF-8
strings (Rust's `str::len`) are modelled by `String.utf8ByteSize`.

The repository's `dictionaries` module (the raw word lists) and its external
collaborators (`rsmorphy`, `unicode-segmentation`, `str::to_lowercase`) are
not part of the analysed sources; following the specification, which treats
the word lists as an immutable set-membership lookup service, they are
modelled as abstract parameters (`Lexicon`, a parse oracle, and a
lowercasing function).
-/

/- ### Character / string helpers (models of Rust `str` operations) -/

/-- Model of Rust `str::ends_with`. -/
def strEndsWith (w suffixStr : String) : Bool :=
  suffixStr.data.isSuffixOf w.data

/-- Model of Rust `str::len` (UTF-8 byte length). -/
def byteLen (s : String) : Nat := s.utf8ByteSize

/-- Model of Rust `char::is_whitespace` (restricted to the whitespace
characters Lean core knows; all whitespace in the repository's inputs is
ASCII). -/
def charIsWs (c : Char) : Bool := c.isWhitespace

/-- Modelled from the spec: the Unicode `Alphabetic` property used by
`char::is_alphabetic` in the missing tokenization layer, restricted to the
Basic Latin and Cyrillic blocks that the repository's Russian/Latin inputs
use. -/
def charIsAlphabetic (c : Char) : Bool :=
  c.isAlpha || (0x400 ≤ c.toNat && c.toNat < 0x500)

/-- Modelled from the spec: `char::is_alphanumeric`, restricted to the same
character ranges as `charIsAlphabetic`. -/
def charIsAlphanumeric (c : Char) : Bool :=
  charIsAlphabetic c || c.isDigit

/-- Model of Rust `str::split(pred)`: split on every character satisfying
`p`, keeping empty fragments (as Rust does). -/
def splitChars (p : Char → Bool) : List Char → List Char → List (List Char)
  | [], acc => [acc.reverse]
  | c :: cs, acc =>
    if p c then acc.reverse :: splitChars p cs []
    else splitChars p cs (c :: acc)

/-- Model of Rust `str::trim`. -/
def trimStr (s : String) : String :=
  String.mk (((s.data.dropWhile charIsWs).reverse.dropWhile charIsWs).reverse)

/- ### Enumerations shared by `morphology.rs` and `rsmorph.rs`
(the two Rust files declare identical copies of these enums). -/

/-- `PartOfSpeech` from `morphology.rs` / `rsmorph.rs`. -/
inductive PartOfSpeech
  | Noun | Verb | Adjective | Adverb | Pronoun | Preposition
  | Conjunction | Numeral | Particle | Interjection | Unknown
deriving DecidableEq, Repr

/-- `VerbTense` from `morphology.rs` / `rsmorph.rs`. -/
inductive VerbTense
  | Past | Present | Future | Infinitive | Unknown
deriving DecidableEq, Repr

/-- `VerbForm` from `morphology.rs` / `rsmorph.rs`. -/
inductive VerbForm
  | Finite | Infinitive | Participle | Gerund | Unknown
deriving DecidableEq, Repr

/-- `PredicateType` from `morphology.rs` / `rsmorph.rs`. -/
inductive PredicateType
  | External | Internal | Neither
deriving DecidableEq, Repr

/-- `PronounPerson` from `morphology.rs` / `rsmorph.rs`. -/
inductive PronounPerson
  | First | Second | Third | Reflexive | Unknown
deriving DecidableEq, Repr

/-- `PronounNumber` from `morphology.rs` / `rsmorph.rs`. -/
inductive PronounNumber
  | Singular | Plural | Unknown
deriving DecidableEq, Repr

/- ### The lexicon store -/

/-- Modelled from the spec: the repository's `dictionaries` module (declared
in `lib.rs` but not among the analysed sources) is, per §6 of the spec, an
immutable set-membership lookup service plus fixed suffix lists.  Word-set
membership is a boolean predicate per category; suffix categories are lists
of ending strings. -/
structure Lexicon where
  PREPOSITIONS : String → Bool
  ALL_CONJUNCTIONS : String → Bool
  COORDINATING_CONJUNCTIONS : String → Bool
  SUBORDINATING_CONJUNCTIONS : String → Bool
  FIRST_PERSON_SINGULAR : String → Bool
  FIRST_PERSON_PLURAL : String → Bool
  SECOND_PERSON_SINGULAR : String → Bool
  SECOND_PERSON_PLURAL : String → Bool
  THIRD_PERSON_SINGULAR : String → Bool
  THIRD_PERSON_PLURAL : String → Bool
  POSSESSIVE_FIRST_PERSON : String → Bool
  INTERNAL_PREDICATES : String → Bool
  EXTERNAL_PREDICATES : String → Bool
  FILLER_WORDS : String → Bool
  STOP_WORDS : String → Bool
  EMOTION_WORDS : String → Bool
  SOCIAL_FAMILY_WORDS : String → Bool
  KNOWN_ADVERBS : String → Bool
  INFINITIVE_ENDINGS : List String
  PARTICIPLE_ENDINGS : List String
  PAST_TENSE_ENDINGS : List String
  ADJECTIVE_ENDINGS : List String

/-- The all-empty lexicon (used to instantiate witnesses). -/
def Lexicon.empty : Lexicon where
  PREPOSITIONS := fun _ => false
  ALL_CONJUNCTIONS := fun _ => false
  COORDINATING_CONJUNCTIONS := fun _ => false
  SUBORDINATING_CONJUNCTIONS := fun _ => false
  FIRST_PERSON_SINGULAR := fun _ => false
  FIRST_PERSON_PLURAL := fun _ => false
  SECOND_PERSON_SINGULAR := fun _ => false
  SECOND_PERSON_PLURAL := fun _ => false
  THIRD_PERSON_SINGULAR := fun _ => false
  THIRD_PERSON_PLURAL := fun _ => false
  POSSESSIVE_FIRST_PERSON := fun _ => false
  INTERNAL_PREDICATES := fun _ => false
  EXTERNAL_PREDICATES := fun _ => false
  FILLER_WORDS := fun _ => false
  STOP_WORDS := fun _ => false
  EMOTION_WORDS := fun _ => false
  SOCIAL_FAMILY_WORDS := fun _ => false
  KNOWN_ADVERBS := fun _ => false
  INFINITIVE_ENDINGS := []
  PARTICIPLE_ENDINGS := []
  PAST_TENSE_ENDINGS := []
  ADJECTIVE_ENDINGS := []

/-- Modelled from the spec: `ends_with_any` from the `dictionaries` module —
whether the word ends with any of the given endings. -/
def ends_with_any (word : String) (endings : List String) : Bool :=
  endings.any (fun e => strEndsWith word e)

/- ### `metrics.rs` -/

/-- `TextMetrics` from `metrics.rs`.  Counts are `Nat`; percentage fields
(`f64` in Rust) are `ℝ`. -/
structure TextMetrics where
  total_words : Nat
  total_sentences : Nat
  run_on_sentences : Nat
  compound_sentences : Nat
  complex_sentences : Nat
  simple_sentences : Nat
  lexical_diversity_index : ℝ
  external_predicates : ℝ
  internal_predicates : ℝ
  active_voice_verbs : ℝ
  past_tense_verbs : ℝ
  present_tense_verbs : ℝ
  future_tense_verbs : ℝ
  infinitives : ℝ
  non_finite_verb_forms : ℝ
  adjectives : ℝ
  nouns : ℝ
  adverbs : ℝ
  first_person_singular_pronouns : ℝ
  first_person_plural_pronouns : ℝ
  second_person_singular_pronouns : ℝ
  second_person_plural_pronouns : ℝ
  third_person_singular_pronouns : ℝ
  third_person_plural_pronouns : ℝ
  filler_words_index : ℝ
  stop_words_index : ℝ
  prepositions : ℝ
  conjunctions : ℝ
  social_interaction_words : ℝ
  emotion_words : ℝ
  egocentrism_index : ℝ

/-- `TextMetrics::new` / `TextMetrics::default`: the all-zero metrics. -/
def TextMetrics.new : TextMetrics where
  total_words := 0
  total_sentences := 0
  run_on_sentences := 0
  compound_sentences := 0
  complex_sentences := 0
  simple_sentences := 0
  lexical_diversity_index := 0
  external_predicates := 0
  internal_predicates := 0
  active_voice_verbs := 0
  past_tense_verbs := 0
  present_tense_verbs := 0
  future_tense_verbs := 0
  infinitives := 0
  non_finite_verb_forms := 0
  adjectives := 0
  nouns := 0
  adverbs := 0
  first_person_singular_pronouns := 0
  first_person_plural_pronouns := 0
  second_person_singular_pronouns := 0
  second_person_plural_pronouns := 0
  third_person_singular_pronouns := 0
  third_person_plural_pronouns := 0
  filler_words_index := 0
  stop_words_index := 0
  prepositions := 0
  conjunctions := 0
  social_interaction_words := 0
  emotion_words := 0
  egocentrism_index := 0

/-- `TextMetrics::percentage` from `metrics.rs`:
`0` when `total == 0`, else `count / total * 100`. -/
noncomputable def TextMetrics.percentage (count total : Nat) : ℝ :=
  if total = 0 then 0 else ((count : ℝ) / (total : ℝ)) * 100

/-- `DiagnosticGroup` from `metrics.rs`. -/
inductive DiagnosticGroup
  | Healthy | Schizophrenia | PersonalityDisorder | BipolarDisorder
deriving DecidableEq, Repr

/-- `GroupScores` from `metrics.rs`. -/
structure GroupScores where
  healthy : ℝ
  schizophrenia : ℝ
  personality_disorder : ℝ
  bipolar_disorder : ℝ

/-- `GroupScores::default`. -/
def GroupScores.default : GroupScores :=
  ⟨0, 0, 0, 0⟩

/-- `ClassificationResult` from `metrics.rs`. -/
structure ClassificationResult where
  primary_diagnosis : DiagnosticGroup
  confidence : ℝ
  group_scores : GroupScores

/-- `ReferenceValues` from `metrics.rs` (Table-2 calibration averages). -/
structure ReferenceValues where
  group : DiagnosticGroup
  metrics : TextMetrics
  std_dev : TextMetrics

/-- `ReferenceValues::schizophrenia` from `metrics.rs`. -/
noncomputable def ReferenceValues.schizophrenia : ReferenceValues where
  group := DiagnosticGroup.Schizophrenia
  metrics :=
    { TextMetrics.new with
      total_words := 19
      run_on_sentences := 0
      compound_sentences := 0
      complex_sentences := 0
      simple_sentences := 2
      lexical_diversity_index := 73.61
      external_predicates := 13.33
      internal_predicates := 2.87
      active_voice_verbs := 15.02
      past_tense_verbs := 10.69
      present_tense_verbs := 3.08
      future_tense_verbs := 0.26
      infinitives := 1.56
      non_finite_verb_forms := 0.41
      adjectives := 5.60
      nouns := 35.25
      adverbs := 2.85
      first_person_singular_pronouns := 4.63
      first_person_plural_pronouns := 0.52
      second_person_singular_pronouns := 0.30
      second_person_plural_pronouns := 0.00
      third_person_singular_pronouns := 0.62
      third_person_plural_pronouns := 0.05
      filler_words_index := 0.52
      stop_words_index := 0.22
      prepositions := 14.58
      conjunctions := 4.71
      social_interaction_words := 1.02
      emotion_words := 0.77
      egocentrism_index := 9.99 }
  std_dev :=
    { TextMetrics.new with
      total_words := 15
      lexical_diversity_index := 22.30
      external_predicates := 9.69
      internal_predicates := 4.54
      past_tense_verbs := 9.08
      present_tense_verbs := 5.63
      first_person_singular_pronouns := 5.07
      emotion_words := 2.20
      social_interaction_words := 2.92
      non_finite_verb_forms := 1.75 }

/- ### `classifier.rs` -/

/-- `FeatureVector` from `classifier.rs`. -/
structure FeatureVector where
  log_volume : ℝ
  non_finite_verbs : ℝ
  first_person_sing : ℝ
  past_tense : ℝ
  present_tense : ℝ
  external_pred : ℝ
  internal_pred : ℝ
  emotion_words : ℝ
  social_interaction : ℝ
  lexical_diversity : ℝ

/-- `FeatureVector::from_metrics` from `classifier.rs`. -/
noncomputable def FeatureVector.from_metrics (metrics : TextMetrics) : FeatureVector where
  log_volume := Real.log ((metrics.total_words : ℝ) + 1.0)
  non_finite_verbs := metrics.non_finite_verb_forms
  first_person_sing := metrics.first_person_singular_pronouns
  past_tense := metrics.past_tense_verbs
  present_tense := metrics.present_tense_verbs
  external_pred := metrics.external_predicates
  internal_pred := metrics.internal_predicates
  emotion_words := metrics.emotion_words
  social_interaction := metrics.social_interaction_words
  lexical_diversity := metrics.lexical_diversity_index

/-- `DiscriminantCoefficients` from `classifier.rs`. -/
structure DiscriminantCoefficients where
  log_volume : ℝ
  non_finite_verbs : ℝ
  first_person_sing : ℝ
  past_tense : ℝ
  present_tense : ℝ
  external_pred : ℝ
  internal_pred : ℝ
  emotion_words : ℝ
  social_interaction : ℝ
  lexical_diversity : ℝ
  constant : ℝ

/-- `DiscriminantCoefficients::score`: the raw discriminant score (dot
product with the feature vector plus the group constant). -/
noncomputable def DiscriminantCoefficients.score
    (c : DiscriminantCoefficients) (features : FeatureVector) : ℝ :=
  c.log_volume * features.log_volume
    + c.non_finite_verbs * features.non_finite_verbs
    + c.first_person_sing * features.first_person_sing
    + c.past_tense * features.past_tense
    + c.present_tense * features.present_tense
    + c.external_pred * features.external_pred
    + c.internal_pred * features.internal_pred
    + c.emotion_words * features.emotion_words
    + c.social_interaction * features.social_interaction
    + c.lexical_diversity * features.lexical_diversity
    + c.constant

/-- `DiscriminantCoefficients::healthy` from `classifier.rs`. -/
noncomputable def DiscriminantCoefficients.healthy : DiscriminantCoefficients where
  log_volume := 2.5
  non_finite_verbs := 0.8
  first_person_sing := 0.15
  past_tense := -0.05
  present_tense := 0.12
  external_pred := -0.02
  internal_pred := 0.18
  emotion_words := 0.15
  social_interaction := -0.05
  lexical_diversity := -0.02
  constant := -12.0

/-- `DiscriminantCoefficients::schizophrenia` from `classifier.rs`. -/
noncomputable def DiscriminantCoefficients.schizophrenia : DiscriminantCoefficients where
  log_volume := -2.0
  non_finite_verbs := -0.5
  first_person_sing := -0.15
  past_tense := 0.2
  present_tense := -0.25
  external_pred := 0.05
  internal_pred := -0.35
  emotion_words := -0.4
  social_interaction := -0.1
  lexical_diversity := 0.04
  constant := -2.0

/-- `DiscriminantCoefficients::personality_disorder` from `classifier.rs`. -/
noncomputable def DiscriminantCoefficients.personality_disorder : DiscriminantCoefficients where
  log_volume := -0.8
  non_finite_verbs := 0.05
  first_person_sing := 0.08
  past_tense := -0.05
  present_tense := 0.15
  external_pred := 0.05
  internal_pred := 0.2
  emotion_words := 0.2
  social_interaction := 0.8
  lexical_diversity := 0.02
  constant := -4.0

/-- `DiscriminantCoefficients::bipolar_disorder` from `classifier.rs`. -/
noncomputable def DiscriminantCoefficients.bipolar_disorder : DiscriminantCoefficients where
  log_volume := -0.6
  non_finite_verbs := 0.5
  first_person_sing := 0.2
  past_tense := 0.02
  present_tense := 0.1
  external_pred := 0.12
  internal_pred := -0.1
  emotion_words := 0.35
  social_interaction := -0.2
  lexical_diversity := 0.01
  constant := -5.5

/-- `Classifier::softmax_scores` from `classifier.rs`: numerically-stable
softmax (the maximum raw score is subtracted before exponentiating; the
maximum is computed exactly as in the source, by left-nested `f64::max`). -/
noncomputable def Classifier.softmax_scores (scores : GroupScores) : GroupScores :=
  let max_score :=
    max (max (max scores.healthy scores.schizophrenia)
      scores.personality_disorder) scores.bipolar_disorder
  let exp_healthy := Real.exp (scores.healthy - max_score)
  let exp_schiz := Real.exp (scores.schizophrenia - max_score)
  let exp_pd := Real.exp (scores.personality_disorder - max_score)
  let exp_bipolar := Real.exp (scores.bipolar_disorder - max_score)
  let total := exp_healthy + exp_schiz + exp_pd + exp_bipolar
  { healthy := exp_healthy / total
    schizophrenia := exp_schiz / total
    personality_disorder := exp_pd / total
    bipolar_disorder := exp_bipolar / total }

/-- `Classifier::compute_lda_scores` from `classifier.rs`: the raw
discriminant score of every group (the loop over `Classifier::new`'s
coefficient table), followed by the softmax. -/
noncomputable def Classifier.compute_lda_scores (metrics : TextMetrics) : GroupScores :=
  let features := FeatureVector.from_metrics metrics
  let raw_scores : GroupScores :=
    { healthy := DiscriminantCoefficients.healthy.score features
      schizophrenia := DiscriminantCoefficients.schizophrenia.score features
      personality_disorder := DiscriminantCoefficients.personality_disorder.score features
      bipolar_disorder := DiscriminantCoefficients.bipolar_disorder.score features }
  Classifier.softmax_scores raw_scores

/-- `Classifier::get_primary_diagnosis` from `classifier.rs`: running best
with strict greater-than comparisons, starting from `Healthy`. -/
noncomputable def Classifier.get_primary_diagnosis (scores : GroupScores) :
    DiagnosticGroup × ℝ :=
  let best1 : DiagnosticGroup × ℝ :=
    if scores.healthy < scores.schizophrenia then
      (DiagnosticGroup.Schizophrenia, scores.schizophrenia)
    else (DiagnosticGroup.Healthy, scores.healthy)
  let best2 : DiagnosticGroup × ℝ :=
    if best1.2 < scores.personality_disorder then
      (DiagnosticGroup.PersonalityDisorder, scores.personality_disorder)
    else best1
  if best2.2 < scores.bipolar_disorder then
    (DiagnosticGroup.BipolarDisorder, scores.bipolar_disorder)
  else best2

/-- `Classifier::classify` from `classifier.rs`. -/
noncomputable def Classifier.classify (metrics : TextMetrics) : ClassificationResult :=
  let scores := Classifier.compute_lda_scores metrics
  let pd := Classifier.get_primary_diagnosis scores
  { primary_diagnosis := pd.1
    confidence := pd.2
    group_scores := scores }

/- ### `morphology.rs` (heuristic word tagger) -/

/-- `WordAnalysis` from `morphology.rs`. -/
structure WordAnalysis where
  word : String
  pos : PartOfSpeech
  verb_tense : Option VerbTense
  verb_form : Option VerbForm
  predicate_type : Option PredicateType
  pronoun_person : Option PronounPerson
  pronoun_number : Option PronounNumber
  is_filler : Bool
  is_stop_word : Bool
  is_emotion_word : Bool
  is_social_interaction : Bool
  is_egocentrism_marker : Bool
deriving DecidableEq, Repr

/-- `WordAnalysis::new` from `morphology.rs`. -/
def WordAnalysis.new (word : String) : WordAnalysis where
  word := word
  pos := PartOfSpeech.Unknown
  verb_tense := none
  verb_form := none
  predicate_type := none
  pronoun_person := none
  pronoun_number := none
  is_filler := false
  is_stop_word := false
  is_emotion_word := false
  is_social_interaction := false
  is_egocentrism_marker := false

/-- `MorphAnalyzer::is_coordinating_conjunction` (lowercases its argument;
`lower` models `str::to_lowercase`). -/
def MorphAnalyzer.is_coordinating_conjunction
    (lex : Lexicon) (lower : String → String) (word : String) : Bool :=
  lex.COORDINATING_CONJUNCTIONS (lower word)

/-- `MorphAnalyzer::is_subordinating_conjunction`. -/
def MorphAnalyzer.is_subordinating_conjunction
    (lex : Lexicon) (lower : String → String) (word : String) : Bool :=
  lex.SUBORDINATING_CONJUNCTIONS (lower word)

/-- `MorphAnalyzer::get_pronoun_info` from `morphology.rs`: ordered lexicon
checks; inside the possessive-first-person branch the four reflexive forms
resolve to `Reflexive`. -/
def MorphAnalyzer.get_pronoun_info (lex : Lexicon) (word : String) :
    Option (PronounPerson × PronounNumber) :=
  if lex.FIRST_PERSON_SINGULAR word then
    some (PronounPerson.First, PronounNumber.Singular)
  else if lex.FIRST_PERSON_PLURAL word then
    some (PronounPerson.First, PronounNumber.Plural)
  else if lex.SECOND_PERSON_SINGULAR word then
    some (PronounPerson.Second, PronounNumber.Singular)
  else if lex.SECOND_PERSON_PLURAL word then
    some (PronounPerson.Second, PronounNumber.Plural)
  else if lex.THIRD_PERSON_SINGULAR word then
    some (PronounPerson.Third, PronounNumber.Singular)
  else if lex.THIRD_PERSON_PLURAL word then
    some (PronounPerson.Third, PronounNumber.Plural)
  else if lex.POSSESSIVE_FIRST_PERSON word then
    if word = "себя" || word = "себе" || word = "собой" || word = "собою" then
      some (PronounPerson.Reflexive, PronounNumber.Unknown)
    else
      some (PronounPerson.First, PronounNumber.Unknown)
  else none

/-- `MorphAnalyzer::is_gerund` from `morphology.rs`: the hard-coded pattern
list with the minimum byte-length requirement. -/
def MorphAnalyzer.is_gerund (word : String) : Bool :=
  let gerund_patterns :=
    ["ая", "яя", "ив", "ав", "ев", "ув", "ывая", "ивая", "вшись", "вши"]
  gerund_patterns.any (fun pattern =>
    strEndsWith word pattern && decide (byteLen pattern + 2 < byteLen word))

/-- `MorphAnalyzer::looks_like_present_tense` from `morphology.rs`: the
hard-coded present-tense endings; the ending must match, the word must be
more than two bytes longer than the ending, and the remaining stem must be
non-empty. -/
def MorphAnalyzer.looks_like_present_tense (word : String) : Bool :=
  let present_endings :=
    ["ю", "ешь", "ёшь", "ет", "ём", "ем", "ете", "ют",
     "у", "ишь", "ит", "им", "ите", "ят", "ат"]
  present_endings.any (fun ending =>
    strEndsWith word ending && decide (byteLen ending + 2 < byteLen word)
      && decide (byteLen word - byteLen ending ≠ 0))

/-- `MorphAnalyzer::determine_verb_tense_form` from `morphology.rs`. -/
def MorphAnalyzer.determine_verb_tense_form (lex : Lexicon) (word : String) :
    VerbTense × VerbForm :=
  if ends_with_any word lex.INFINITIVE_ENDINGS then
    (VerbTense.Infinitive, VerbForm.Infinitive)
  else if ends_with_any word lex.PARTICIPLE_ENDINGS then
    (VerbTense.Unknown, VerbForm.Participle)
  else if MorphAnalyzer.is_gerund word then
    (VerbTense.Unknown, VerbForm.Gerund)
  else if ends_with_any word lex.PAST_TENSE_ENDINGS then
    (VerbTense.Past, VerbForm.Finite)
  else
    (VerbTense.Present, VerbForm.Finite)

/-- `MorphAnalyzer::analyze_verb` from `morphology.rs`: predicate-lexicon
branch first, then the suffix cascade (infinitive → participle → gerund →
past tense with byte length > 3 → present tense). -/
def MorphAnalyzer.analyze_verb (lex : Lexicon) (word : String) :
    Option (VerbTense × VerbForm × PredicateType) :=
  let is_internal := lex.INTERNAL_PREDICATES word
  let is_external := lex.EXTERNAL_PREDICATES word
  let pred_type :=
    if is_internal then PredicateType.Internal
    else if is_external then PredicateType.External
    else PredicateType.Neither
  if is_internal || is_external then
    let tf := MorphAnalyzer.determine_verb_tense_form lex word
    some (tf.1, tf.2, pred_type)
  else if ends_with_any word lex.INFINITIVE_ENDINGS then
    some (VerbTense.Infinitive, VerbForm.Infinitive, pred_type)
  else if ends_with_any word lex.PARTICIPLE_ENDINGS then
    some (VerbTense.Unknown, VerbForm.Participle, pred_type)
  else if MorphAnalyzer.is_gerund word then
    some (VerbTense.Unknown, VerbForm.Gerund, pred_type)
  else if ends_with_any word lex.PAST_TENSE_ENDINGS && decide (3 < byteLen word) then
    some (VerbTense.Past, VerbForm.Finite, pred_type)
  else if MorphAnalyzer.looks_like_present_tense word then
    some (VerbTense.Present, VerbForm.Finite, pred_type)
  else none

/-- `MorphAnalyzer::is_adverb` from `morphology.rs`: known-adverb lexicon,
or the derivational heuristic (ends in `о`/`е`, byte length > 4, stem byte
length > 3). -/
def MorphAnalyzer.is_adverb (lex : Lexicon) (word : String) : Bool :=
  if lex.KNOWN_ADVERBS word then true
  else
    decide (4 < byteLen word)
      && (strEndsWith word "о" || strEndsWith word "е")
      && decide (3 < byteLen word - 2)

/-- `MorphAnalyzer::is_adjective` from `morphology.rs`. -/
def MorphAnalyzer.is_adjective (lex : Lexicon) (word : String) : Bool :=
  ends_with_any word lex.ADJECTIVE_ENDINGS && decide (4 < byteLen word)

/-- `MorphAnalyzer::is_noun` from `morphology.rs`: the fallback. -/
def MorphAnalyzer.is_noun (word : String) : Bool :=
  decide (2 < byteLen word)

/-- `MorphAnalyzer::is_egocentrism_marker` from `morphology.rs`. -/
def MorphAnalyzer.is_egocentrism_marker (lex : Lexicon) (word : String) : Bool :=
  lex.FIRST_PERSON_SINGULAR word || lex.POSSESSIVE_FIRST_PERSON word

/-- `MorphAnalyzer::is_social_interaction_word` from `morphology.rs`:
first-person-plural lexicon or a first-person-plural verb ending. -/
def MorphAnalyzer.is_social_interaction_word (lex : Lexicon) (word : String) : Bool :=
  if lex.FIRST_PERSON_PLURAL word then true
  else if strEndsWith word "ем" || strEndsWith word "им" || strEndsWith word "ём" then true
  else false

/-- `MorphAnalyzer::is_active_voice` from `morphology.rs` (identical to the
copy in `rsmorph.rs`): a verb is active unless it ends in `-ся` or `-сь`. -/
def MorphAnalyzer.is_active_voice (word : String) : Bool :=
  !(strEndsWith word "ся") && !(strEndsWith word "сь")

/-- `MorphAnalyzer::analyze` from `morphology.rs`: lowercase, set the four
lexicon flags, run the ordered POS rule list, then set the
social-interaction flag from `is_social_interaction_word`. -/
def MorphAnalyzer.analyze (lex : Lexicon) (lower : String → String)
    (word : String) : WordAnalysis :=
  let word_lower := lower word
  let a0 :=
    { WordAnalysis.new word_lower with
      is_filler := lex.FILLER_WORDS word_lower
      is_stop_word := lex.STOP_WORDS word_lower
      is_emotion_word := lex.EMOTION_WORDS word_lower
      is_egocentrism_marker := MorphAnalyzer.is_egocentrism_marker lex word_lower }
  let a1 :=
    if lex.PREPOSITIONS word_lower then
      { a0 with pos := PartOfSpeech.Preposition }
    else if lex.ALL_CONJUNCTIONS word_lower then
      { a0 with pos := PartOfSpeech.Conjunction }
    else
      match MorphAnalyzer.get_pronoun_info lex word_lower with
      | some (person, number) =>
        { a0 with pos := PartOfSpeech.Pronoun
                  pronoun_person := some person
                  pronoun_number := some number }
      | none =>
        match MorphAnalyzer.analyze_verb lex word_lower with
        | some (tense, form, pred_type) =>
          { a0 with pos := PartOfSpeech.Verb
                    verb_tense := some tense
                    verb_form := some form
                    predicate_type := some pred_type }
        | none =>
          if MorphAnalyzer.is_adverb lex word_lower then
            { a0 with pos := PartOfSpeech.Adverb }
          else if MorphAnalyzer.is_adjective lex word_lower then
            { a0 with pos := PartOfSpeech.Adjective }
          else if MorphAnalyzer.is_noun word_lower then
            { a0 with pos := PartOfSpeech.Noun }
          else a0
  { a1 with is_social_interaction := MorphAnalyzer.is_social_interaction_word lex word_lower }

/- ### `sentence.rs` (sentence segmenter and classifier) -/

/-- `SentenceType` from `sentence.rs`. -/
inductive SentenceType
  | Simple | Compound | Complex | RunOn
deriving DecidableEq, Repr

/-- `SentenceAnalysis` from `sentence.rs`. -/
structure SentenceAnalysis where
  text : String
  sentence_type : SentenceType
  clause_count : Nat
  word_count : Nat
  has_coordinating_conjunction : Bool
  has_subordinating_conjunction : Bool
deriving DecidableEq, Repr

/-- The terminal sentence marks of the `SENTENCE_SPLITTER` regex
`[.!?]+\s*`. -/
def isTerminalMark (c : Char) : Bool :=
  c = '.' || c = '!' || c = '?'

/-- The clause-boundary marks of the `CLAUSE_BOUNDARY` regex
`[,;:\-–—]`. -/
def isClauseBoundaryMark (c : Char) : Bool :=
  c = ',' || c = ';' || c = ':' || c = '-' || c = '–' || c = '—'

/-- State of the `SENTENCE_SPLITTER` scan: building a fragment, inside a
run of terminal marks, or inside the optional whitespace after them. -/
inductive SplitPhase
  | frag : List Char → SplitPhase
  | terms : SplitPhase
  | wsp : SplitPhase

/-- Model of `Regex::split` for the pattern `[.!?]+\s*`: each
leftmost-longest match of one-or-more terminal marks followed by optional
whitespace separates two fragments. -/
def sentenceSplitGo : List Char → SplitPhase → List String
  | [], SplitPhase.frag acc => [String.mk acc.reverse]
  | [], SplitPhase.terms => [""]
  | [], SplitPhase.wsp => [""]
  | c :: cs, SplitPhase.frag acc =>
    if isTerminalMark c then
      String.mk acc.reverse :: sentenceSplitGo cs SplitPhase.terms
    else sentenceSplitGo cs (SplitPhase.frag (c :: acc))
  | c :: cs, SplitPhase.terms =>
    if isTerminalMark c then sentenceSplitGo cs SplitPhase.terms
    else if charIsWs c then sentenceSplitGo cs SplitPhase.wsp
    else sentenceSplitGo cs (SplitPhase.frag [c])
  | c :: cs, SplitPhase.wsp =>
    if isTerminalMark c then
      "" :: sentenceSplitGo cs SplitPhase.terms
    else if charIsWs c then sentenceSplitGo cs SplitPhase.wsp
    else sentenceSplitGo cs (SplitPhase.frag [c])

/-- `SentenceAnalyzer::split_into_sentences` from `sentence.rs`: trim the
text, return nothing when empty, otherwise split on the
`SENTENCE_SPLITTER` regex, trim every fragment and drop the empty ones. -/
def SentenceAnalyzer.split_into_sentences (text : String) : List String :=
  let cleaned := trimStr text
  if cleaned = "" then []
  else
    ((sentenceSplitGo cleaned.data (SplitPhase.frag [])).map trimStr).filter
      (fun s => !(s = ""))

/-- `SentenceAnalyzer::extract_words` from `sentence.rs`: split on every
non-alphanumeric character, lowercase, drop empty fragments. -/
def SentenceAnalyzer.extract_words (lower : String → String) (sentence : String) :
    List String :=
  (((splitChars (fun c => !charIsAlphanumeric c) sentence.data []).map
      (fun l => lower (String.mk l))).filter (fun s => !(s = "")))

/-- `SentenceAnalyzer::has_coordinating_conjunction` from `sentence.rs`. -/
def SentenceAnalyzer.has_coordinating_conjunction
    (lex : Lexicon) (lower : String → String) (words : List String) : Bool :=
  words.any (fun w => MorphAnalyzer.is_coordinating_conjunction lex lower w)

/-- `SentenceAnalyzer::has_subordinating_conjunction` from `sentence.rs`. -/
def SentenceAnalyzer.has_subordinating_conjunction
    (lex : Lexicon) (lower : String → String) (words : List String) : Bool :=
  words.any (fun w => MorphAnalyzer.is_subordinating_conjunction lex lower w)

/-- `SentenceAnalyzer::count_potential_verbs` from `sentence.rs`: number of
tokens the heuristic tagger marks `Verb`, floored at 1. -/
def SentenceAnalyzer.count_potential_verbs
    (lex : Lexicon) (lower : String → String) (words : List String) : Nat :=
  max (words.countP (fun w =>
    decide ((MorphAnalyzer.analyze lex lower w).pos = PartOfSpeech.Verb))) 1

/-- `SentenceAnalyzer::estimate_clause_count` from `sentence.rs`. -/
def SentenceAnalyzer.estimate_clause_count (lex : Lexicon) (lower : String → String)
    (words : List String) (clause_boundaries : Nat) : Nat :=
  let verb_count := SentenceAnalyzer.count_potential_verbs lex lower words
  let punct_estimate := if 0 < clause_boundaries then clause_boundaries + 1 else 1
  let conj_count := words.countP (fun w =>
    MorphAnalyzer.is_coordinating_conjunction lex lower w
      || MorphAnalyzer.is_subordinating_conjunction lex lower w)
  let base_estimate := max (min verb_count punct_estimate) 1
  if 0 < conj_count ∧ base_estimate = 1 then conj_count + 1
  else base_estimate

/-- `SentenceAnalyzer::determine_sentence_type` from `sentence.rs`. -/
def SentenceAnalyzer.determine_sentence_type (clause_count : Nat)
    (has_coordinating has_subordinating : Bool) : SentenceType :=
  if clause_count ≤ 1 then SentenceType.Simple
  else if has_subordinating then SentenceType.Complex
  else if has_coordinating then SentenceType.Compound
  else SentenceType.RunOn

/-- `SentenceAnalyzer::analyze_sentence` from `sentence.rs`. -/
def SentenceAnalyzer.analyze_sentence (lex : Lexicon) (lower : String → String)
    (sentence : String) : SentenceAnalysis :=
  let words := SentenceAnalyzer.extract_words lower sentence
  let word_count := words.length
  let has_coordinating := SentenceAnalyzer.has_coordinating_conjunction lex lower words
  let has_subordinating := SentenceAnalyzer.has_subordinating_conjunction lex lower words
  let clause_boundaries := sentence.data.countP isClauseBoundaryMark
  let clause_count :=
    SentenceAnalyzer.estimate_clause_count lex lower words clause_boundaries
  let sentence_type :=
    SentenceAnalyzer.determine_sentence_type clause_count has_coordinating has_subordinating
  { text := sentence
    sentence_type := sentence_type
    clause_count := clause_count
    word_count := word_count
    has_coordinating_conjunction := has_coordinating
    has_subordinating_conjunction := has_subordinating }

/-- `SentenceAnalyzer::analyze_text` from `sentence.rs`. -/
def SentenceAnalyzer.analyze_text (lex : Lexicon) (lower : String → String)
    (text : String) : List SentenceAnalysis :=
  (SentenceAnalyzer.split_into_sentences text).map
    (fun s => SentenceAnalyzer.analyze_sentence lex lower s)

/- ### `rsmorph.rs` (dictionary-backed word tagger) -/

/-- `WordAnalysis` from `rsmorph.rs` (the `rsmorph` variant also carries an
optional lemma). -/
structure RsWordAnalysis where
  word : String
  lemma' : Option String
  pos : PartOfSpeech
  verb_tense : Option VerbTense
  verb_form : Option VerbForm
  predicate_type : Option PredicateType
  pronoun_person : Option PronounPerson
  pronoun_number : Option PronounNumber
  is_filler : Bool
  is_stop_word : Bool
  is_emotion_word : Bool
  is_social_interaction : Bool
  is_egocentrism_marker : Bool
deriving DecidableEq, Repr

/-- `WordAnalysis::new` from `rsmorph.rs`. -/
def RsWordAnalysis.new (word : String) : RsWordAnalysis where
  word := word
  lemma' := none
  pos := PartOfSpeech.Unknown
  verb_tense := none
  verb_form := none
  predicate_type := none
  pronoun_person := none
  pronoun_number := none
  is_filler := false
  is_stop_word := false
  is_emotion_word := false
  is_social_interaction := false
  is_egocentrism_marker := false

/-- The first parse returned by the external `rsmorphy` analyzer for a
word: a normal form (lemma) and a grammeme set.  The external dictionary is
modelled as an oracle `String → Option RsParse`. -/
structure RsParse where
  normal_form : String
  grammemes : String → Bool

/-- `RsMorphAnalyzer::check_pronoun_dictionaries` from `rsmorph.rs`
(same ordered lexicon checks as `MorphAnalyzer::get_pronoun_info`). -/
def RsMorphAnalyzer.check_pronoun_dictionaries (lex : Lexicon) (word : String) :
    Option (PronounPerson × PronounNumber) :=
  if lex.FIRST_PERSON_SINGULAR word then
    some (PronounPerson.First, PronounNumber.Singular)
  else if lex.FIRST_PERSON_PLURAL word then
    some (PronounPerson.First, PronounNumber.Plural)
  else if lex.SECOND_PERSON_SINGULAR word then
    some (PronounPerson.Second, PronounNumber.Singular)
  else if lex.SECOND_PERSON_PLURAL word then
    some (PronounPerson.Second, PronounNumber.Plural)
  else if lex.THIRD_PERSON_SINGULAR word then
    some (PronounPerson.Third, PronounNumber.Singular)
  else if lex.THIRD_PERSON_PLURAL word then
    some (PronounPerson.Third, PronounNumber.Plural)
  else if lex.POSSESSIVE_FIRST_PERSON word then
    if word = "себя" || word = "себе" || word = "собой" || word = "собою" then
      some (PronounPerson.Reflexive, PronounNumber.Unknown)
    else
      some (PronounPerson.First, PronounNumber.Unknown)
  else none

/-- `RsMorphAnalyzer::extract_pos` from `rsmorph.rs`. -/
def RsMorphAnalyzer.extract_pos (g : String → Bool) : PartOfSpeech :=
  if g "NOUN" then PartOfSpeech.Noun
  else if g "VERB" || g "INFN" || g "PRTF" || g "PRTS" || g "GRND" then
    PartOfSpeech.Verb
  else if g "ADJF" || g "ADJS" then PartOfSpeech.Adjective
  else if g "ADVB" then PartOfSpeech.Adverb
  else if g "NPRO" then PartOfSpeech.Pronoun
  else if g "PREP" then PartOfSpeech.Preposition
  else if g "CONJ" then PartOfSpeech.Conjunction
  else if g "NUMR" then PartOfSpeech.Numeral
  else if g "PRCL" then PartOfSpeech.Particle
  else if g "INTJ" then PartOfSpeech.Interjection
  else PartOfSpeech.Unknown

/-- `RsMorphAnalyzer::extract_verb_tense` from `rsmorph.rs`. -/
def RsMorphAnalyzer.extract_verb_tense (g : String → Bool) : VerbTense :=
  if g "INFN" then VerbTense.Infinitive
  else if g "past" then VerbTense.Past
  else if g "pres" then VerbTense.Present
  else if g "futr" then VerbTense.Future
  else VerbTense.Unknown

/-- `RsMorphAnalyzer::extract_verb_form` from `rsmorph.rs`. -/
def RsMorphAnalyzer.extract_verb_form (g : String → Bool) : VerbForm :=
  if g "INFN" then VerbForm.Infinitive
  else if g "PRTF" || g "PRTS" then VerbForm.Participle
  else if g "GRND" then VerbForm.Gerund
  else if g "VERB" then VerbForm.Finite
  else VerbForm.Unknown

/-- `RsMorphAnalyzer::is_first_person_plural` from `rsmorph.rs`. -/
def RsMorphAnalyzer.is_first_person_plural (g : String → Bool) : Bool :=
  g "1per" && g "plur"

/-- `RsMorphAnalyzer::check_predicate_type` from `rsmorph.rs`. -/
def RsMorphAnalyzer.check_predicate_type (lex : Lexicon) (word lem : String) :
    PredicateType :=
  if lex.INTERNAL_PREDICATES word || lex.INTERNAL_PREDICATES lem then
    PredicateType.Internal
  else if lex.EXTERNAL_PREDICATES word || lex.EXTERNAL_PREDICATES lem then
    PredicateType.External
  else PredicateType.Neither

/-- `RsMorphAnalyzer::is_active_voice` from `rsmorph.rs`. -/
def RsMorphAnalyzer.is_active_voice (word : String) : Bool :=
  !(strEndsWith word "ся") && !(strEndsWith word "сь")

/-- The part of `RsMorphAnalyzer::analyze` that runs when the
pronoun-dictionary check does not fire, operating on the current analysis
record `a0`: the predicate-dictionary check followed by the external
`rsmorphy` parse (`oracle`), exactly in source order. -/
def RsMorphAnalyzer.analyzeTail (lex : Lexicon) (oracle : String → Option RsParse)
    (word_lower : String) (a0 : RsWordAnalysis) : RsWordAnalysis :=
  let predicate_type := RsMorphAnalyzer.check_predicate_type lex word_lower word_lower
  let a1 :=
    if predicate_type ≠ PredicateType.Neither then
      { a0 with predicate_type := some predicate_type
                pos :=
                  if a0.pos = PartOfSpeech.Unknown ∨ a0.pos = PartOfSpeech.Conjunction
                  then PartOfSpeech.Verb else a0.pos }
    else a0
  match oracle word_lower with
  | some parse =>
    let a2 := { a1 with lemma' := some parse.normal_form }
    let a3 :=
      if a2.predicate_type = none then
        { a2 with pos := RsMorphAnalyzer.extract_pos parse.grammemes }
      else a2
    let a4 :=
      if a3.pos = PartOfSpeech.Verb then
        let a3' :=
          { a3 with
            verb_tense := some (RsMorphAnalyzer.extract_verb_tense parse.grammemes)
            verb_form := some (RsMorphAnalyzer.extract_verb_form parse.grammemes) }
        if a3'.predicate_type = none then
          let lem := a3'.lemma'.getD word_lower
          let pred_type := RsMorphAnalyzer.check_predicate_type lex word_lower lem
          if pred_type ≠ PredicateType.Neither then
            { a3' with predicate_type := some pred_type }
          else a3'
        else a3'
      else a3
    if a4.pos = PartOfSpeech.Verb
        && RsMorphAnalyzer.is_first_person_plural parse.grammemes then
      { a4 with is_social_interaction := true }
    else a4
  | none => a1

/-- `RsMorphAnalyzer::analyze` from `rsmorph.rs`: lexicon flags first (the
social flag from the social-family lexicon), then the pronoun-dictionary
early return (which recomputes the social flag from person/number), then,
via `analyzeTail`, the predicate-dictionary check and the external
`rsmorphy` parse, exactly in source order. -/
def RsMorphAnalyzer.analyze (lex : Lexicon) (oracle : String → Option RsParse)
    (lower : String → String) (word : String) : RsWordAnalysis :=
  let word_lower := lower word
  let a0 :=
    { RsWordAnalysis.new word_lower with
      is_filler := lex.FILLER_WORDS word_lower
      is_stop_word := lex.STOP_WORDS word_lower
      is_emotion_word := lex.EMOTION_WORDS word_lower
      is_egocentrism_marker :=
        lex.FIRST_PERSON_SINGULAR word_lower || lex.POSSESSIVE_FIRST_PERSON word_lower
      is_social_interaction := lex.SOCIAL_FAMILY_WORDS word_lower }
  match RsMorphAnalyzer.check_pronoun_dictionaries lex word_lower with
  | some (person, number) =>
    { a0 with pos := PartOfSpeech.Pronoun
              pronoun_person := some person
              pronoun_number := some number
              is_social_interaction :=
                decide (person = PronounPerson.First)
                  && decide (number = PronounNumber.Plural) }
  | none => RsMorphAnalyzer.analyzeTail lex oracle word_lower a0

/- ### `analyzer.rs` (metric aggregator) -/

/-- Modelled from the spec: `unicode_words` of the external
`unicode-segmentation` crate ("Unicode-aware word-boundary segmentation"),
approximated as the maximal runs of alphanumeric characters. -/
def unicodeWords (text : String) : List String :=
  ((splitChars (fun c => !charIsAlphanumeric c) text.data []).map String.mk).filter
    (fun s => !(s = ""))

/-- `TextAnalyzer::extract_words` from `analyzer.rs`: Unicode word
segmentation keeping only tokens with at least one alphabetic character. -/
def TextAnalyzer.extract_words (text : String) : List String :=
  (unicodeWords text).filter (fun s => s.data.any charIsAlphabetic)

/-- `WordCounters` from `analyzer.rs`. -/
structure WordCounters where
  nouns : Nat
  adjectives : Nat
  adverbs : Nat
  prepositions : Nat
  conjunctions : Nat
  first_person_singular : Nat
  first_person_plural : Nat
  second_person_singular : Nat
  second_person_plural : Nat
  third_person_singular : Nat
  third_person_plural : Nat
  past_tense : Nat
  present_tense : Nat
  future_tense : Nat
  infinitives : Nat
  non_finite_forms : Nat
  active_voice : Nat
  external_predicates : Nat
  internal_predicates : Nat
  filler_words : Nat
  stop_words : Nat
  emotion_words : Nat
  social_interaction_words : Nat
  egocentrism_markers : Nat
deriving DecidableEq, Repr

/-- `WordCounters::default`: all counters zero. -/
def WordCounters.new : WordCounters :=
  ⟨0, 0, 0, 0, 0, 0, 0, 0, 0, 0, 0, 0, 0, 0, 0, 0, 0, 0, 0, 0, 0, 0, 0, 0⟩

/-- `TextAnalyzer::count_pronoun` from `analyzer.rs` (match arms in source
order; possessive `(First, Unknown)` forms and reflexive forms also
increment the first-person-singular counter). -/
def TextAnalyzer.count_pronoun (analysis : RsWordAnalysis) (c : WordCounters) :
    WordCounters :=
  match analysis.pronoun_person, analysis.pronoun_number with
  | some PronounPerson.First, some PronounNumber.Singular =>
    { c with first_person_singular := c.first_person_singular + 1 }
  | some PronounPerson.First, some PronounNumber.Plural =>
    { c with first_person_plural := c.first_person_plural + 1 }
  | some PronounPerson.Second, some PronounNumber.Singular =>
    { c with second_person_singular := c.second_person_singular + 1 }
  | some PronounPerson.Second, some PronounNumber.Plural =>
    { c with second_person_plural := c.second_person_plural + 1 }
  | some PronounPerson.Third, some PronounNumber.Singular =>
    { c with third_person_singular := c.third_person_singular + 1 }
  | some PronounPerson.Third, some PronounNumber.Plural =>
    { c with third_person_plural := c.third_person_plural + 1 }
  | some PronounPerson.First, some PronounNumber.Unknown =>
    { c with first_person_singular := c.first_person_singular + 1 }
  | some PronounPerson.Reflexive, _ =>
    { c with first_person_singular := c.first_person_singular + 1 }
  | _, _ => c

/-- The tense tally of `TextAnalyzer::count_verb`. -/
def TextAnalyzer.countTense (analysis : RsWordAnalysis) (c : WordCounters) :
    WordCounters :=
  match analysis.verb_tense with
  | some VerbTense.Past => { c with past_tense := c.past_tense + 1 }
  | some VerbTense.Present => { c with present_tense := c.present_tense + 1 }
  | some VerbTense.Future => { c with future_tense := c.future_tense + 1 }
  | some VerbTense.Infinitive => { c with infinitives := c.infinitives + 1 }
  | _ => c

/-- The non-finite-form tally of `TextAnalyzer::count_verb`
(`Participle` or `Gerund`). -/
def TextAnalyzer.countForm (analysis : RsWordAnalysis) (c : WordCounters) :
    WordCounters :=
  match analysis.verb_form with
  | some VerbForm.Participle =>
    { c with non_finite_forms := c.non_finite_forms + 1 }
  | some VerbForm.Gerund =>
    { c with non_finite_forms := c.non_finite_forms + 1 }
  | _ => c

/-- The predicate-type tally of `TextAnalyzer::count_verb`. -/
def TextAnalyzer.countPredicate (analysis : RsWordAnalysis) (c : WordCounters) :
    WordCounters :=
  match analysis.predicate_type with
  | some PredicateType.External =>
    { c with external_predicates := c.external_predicates + 1 }
  | some PredicateType.Internal =>
    { c with internal_predicates := c.internal_predicates + 1 }
  | _ => c

/-- The active-voice tally of `TextAnalyzer::count_verb` (tested on the
original, non-lowercased token). -/
def TextAnalyzer.countActive (word : String) (c : WordCounters) : WordCounters :=
  if RsMorphAnalyzer.is_active_voice word then
    { c with active_voice := c.active_voice + 1 }
  else c

/-- `TextAnalyzer::count_verb` from `analyzer.rs` (tense, non-finite form,
predicate type, and active voice are tallied independently, in source
order). -/
def TextAnalyzer.count_verb (analysis : RsWordAnalysis) (word : String)
    (c : WordCounters) : WordCounters :=
  TextAnalyzer.countActive word
    (TextAnalyzer.countPredicate analysis
      (TextAnalyzer.countForm analysis (TextAnalyzer.countTense analysis c)))

/-- The POS-dispatch part of one iteration of the per-word loop of
`TextAnalyzer::analyze` (the `match analysis.pos` statement). -/
def TextAnalyzer.countPos (analysis : RsWordAnalysis) (word : String)
    (c : WordCounters) : WordCounters :=
  match analysis.pos with
  | PartOfSpeech.Noun => { c with nouns := c.nouns + 1 }
  | PartOfSpeech.Adjective => { c with adjectives := c.adjectives + 1 }
  | PartOfSpeech.Adverb => { c with adverbs := c.adverbs + 1 }
  | PartOfSpeech.Preposition => { c with prepositions := c.prepositions + 1 }
  | PartOfSpeech.Conjunction => { c with conjunctions := c.conjunctions + 1 }
  | PartOfSpeech.Pronoun => TextAnalyzer.count_pronoun analysis c
  | PartOfSpeech.Verb => TextAnalyzer.count_verb analysis word c
  | _ => c

/-- The special-category part of one iteration of the per-word loop of
`TextAnalyzer::analyze` (the five flag `if`s). -/
def TextAnalyzer.countFlags (analysis : RsWordAnalysis) (c : WordCounters) :
    WordCounters :=
  let c := if analysis.is_filler then { c with filler_words := c.filler_words + 1 } else c
  let c := if analysis.is_stop_word then { c with stop_words := c.stop_words + 1 } else c
  let c :=
    if analysis.is_emotion_word then { c with emotion_words := c.emotion_words + 1 } else c
  let c :=
    if analysis.is_social_interaction then
      { c with social_interaction_words := c.social_interaction_words + 1 }
    else c
  if analysis.is_egocentrism_marker then
    { c with egocentrism_markers := c.egocentrism_markers + 1 }
  else c

/-- The body of one iteration of the per-word loop of
`TextAnalyzer::analyze`, given the analysis of the current word: the POS
dispatch followed by the five special-category flag counters. -/
def TextAnalyzer.countWordWith (analysis : RsWordAnalysis) (word : String)
    (c : WordCounters) : WordCounters :=
  TextAnalyzer.countFlags analysis (TextAnalyzer.countPos analysis word c)

/-- One iteration of the per-word loop of `TextAnalyzer::analyze`. -/
def TextAnalyzer.countWord (lex : Lexicon) (oracle : String → Option RsParse)
    (lower : String → String) (c : WordCounters) (word : String) : WordCounters :=
  TextAnalyzer.countWordWith (RsMorphAnalyzer.analyze lex oracle lower word) word c

/-- `TextAnalyzer::counters_to_metrics` from `analyzer.rs`. -/
noncomputable def TextAnalyzer.counters_to_metrics (c : WordCounters) (total : Nat)
    (metrics : TextMetrics) : TextMetrics :=
  { metrics with
    nouns := TextMetrics.percentage c.nouns total
    adjectives := TextMetrics.percentage c.adjectives total
    adverbs := TextMetrics.percentage c.adverbs total
    prepositions := TextMetrics.percentage c.prepositions total
    conjunctions := TextMetrics.percentage c.conjunctions total
    first_person_singular_pronouns := TextMetrics.percentage c.first_person_singular total
    first_person_plural_pronouns := TextMetrics.percentage c.first_person_plural total
    second_person_singular_pronouns := TextMetrics.percentage c.second_person_singular total
    second_person_plural_pronouns := TextMetrics.percentage c.second_person_plural total
    third_person_singular_pronouns := TextMetrics.percentage c.third_person_singular total
    third_person_plural_pronouns := TextMetrics.percentage c.third_person_plural total
    past_tense_verbs := TextMetrics.percentage c.past_tense total
    present_tense_verbs := TextMetrics.percentage c.present_tense total
    future_tense_verbs := TextMetrics.percentage c.future_tense total
    infinitives := TextMetrics.percentage c.infinitives total
    non_finite_verb_forms := TextMetrics.percentage c.non_finite_forms total
    active_voice_verbs := TextMetrics.percentage c.active_voice total
    external_predicates := TextMetrics.percentage c.external_predicates total
    internal_predicates := TextMetrics.percentage c.internal_predicates total
    filler_words_index := TextMetrics.percentage c.filler_words total
    stop_words_index := TextMetrics.percentage c.stop_words total
    emotion_words := TextMetrics.percentage c.emotion_words total
    social_interaction_words := TextMetrics.percentage c.social_interaction_words total
    egocentrism_index := TextMetrics.percentage c.egocentrism_markers total }

/-- The non-short-circuit branch of `TextAnalyzer::analyze`: sentence
analysis and per-type tallies, lexical diversity over the distinct
lowercased word forms (the `HashSet` size), the per-word counter loop, and
the conversion of counters to percentages. -/
noncomputable def TextAnalyzer.analyzeFull (lex : Lexicon)
    (oracle : String → Option RsParse) (lower : String → String)
    (text : String) : TextMetrics :=
  let words := TextAnalyzer.extract_words text
  let total_words := words.length
  let sentence_analyses := SentenceAnalyzer.analyze_text lex lower text
  let counters := words.foldl (TextAnalyzer.countWord lex oracle lower) WordCounters.new
  TextAnalyzer.counters_to_metrics counters total_words
    { TextMetrics.new with
      total_words := total_words
      total_sentences := sentence_analyses.length
      simple_sentences := sentence_analyses.countP
        (fun a => decide (a.sentence_type = SentenceType.Simple))
      compound_sentences := sentence_analyses.countP
        (fun a => decide (a.sentence_type = SentenceType.Compound))
      complex_sentences := sentence_analyses.countP
        (fun a => decide (a.sentence_type = SentenceType.Complex))
      run_on_sentences := sentence_analyses.countP
        (fun a => decide (a.sentence_type = SentenceType.RunOn))
      lexical_diversity_index :=
        TextMetrics.percentage ((words.map lower).dedup.length) total_words }

/-- `TextAnalyzer::analyze` from `analyzer.rs`: extract the words, record
`total_words`, and short-circuit with the otherwise-default metrics when no
word was extracted. -/
noncomputable def TextAnalyzer.analyze (lex : Lexicon)
    (oracle : String → Option RsParse) (lower : String → String)
    (text : String) : TextMetrics :=
  if (TextAnalyzer.extract_words text).length = 0 then
    { TextMetrics.new with total_words := (TextAnalyzer.extract_words text).length }
  else TextAnalyzer.analyzeFull lex oracle lower text

/- ### Claim theorems -/

/-- Lower bound on `log 20` used for the reference-example score
comparison: `log 20 = 4 log 2 + log (5/4) ≥ 4 · 0.6931471803 + 1/5`. -/
theorem log_twenty_gt : (2.97 : ℝ) < Real.log 20 := by
  have h20 : Real.log 20 = 4 * Real.log 2 + Real.log (5 / 4) := by
    rw [show (20 : ℝ) = 2 ^ 4 * (5 / 4) by norm_num,
      Real.log_mul (by positivity) (by norm_num), Real.log_pow]
    push_cast
    ring
  have h2 : (0.6931471803 : ℝ) < Real.log 2 := Real.log_two_gt_d9
  have h54 : (1 / 5 : ℝ) ≤ Real.log (5 / 4) := by
    have hle : Real.log ((4 : ℝ) / 5) ≤ (4 : ℝ) / 5 - 1 :=
      Real.log_le_sub_one_of_pos (by norm_num)
    have hinv : Real.log ((4 : ℝ) / 5) = -Real.log (5 / 4) := by
      rw [show ((4 : ℝ) / 5) = ((5 : ℝ) / 4)⁻¹ by norm_num, Real.log_inv]
    linarith
  rw [h20]
  linarith

/-- On the Schizophrenia reference example's metrics
(`ReferenceValues::schizophrenia`), the raw discriminant score of the
Healthy coefficient vector strictly exceeds the raw score of the
Schizophrenia coefficient vector (the difference is
`4.5 · log 20 − 12.965 ≈ 0.516 > 0`).  Shared basis for the C1
counterexample and the C1 amended theorem. -/
theorem healthy_raw_score_gt_schizophrenia_on_reference :
    DiscriminantCoefficients.schizophrenia.score
        (FeatureVector.from_metrics ReferenceValues.schizophrenia.metrics) <
      DiscriminantCoefficients.healthy.score
        (FeatureVector.from_metrics ReferenceValues.schizophrenia.metrics) := by
  have hlog : (2.97 : ℝ) < Real.log 20 := log_twenty_gt
  simp only [DiscriminantCoefficients.score, DiscriminantCoefficients.healthy,
    DiscriminantCoefficients.schizophrenia, FeatureVector.from_metrics,
    ReferenceValues.schizophrenia]
  norm_num
  nlinarith [hlog]

/-- C1 — counterexample.  The claim states that on the Schizophrenia
reference example's metrics the raw discriminant score computed with the
Schizophrenia coefficient vector is strictly greater than the raw score
computed with the Healthy coefficient vector.  This is false on the code:
at that concrete input the Healthy score (≈ −4.81) exceeds the
Schizophrenia score (≈ −5.33). -/
theorem C1_schizophrenia_reference_score_claim_false :
    ¬ (DiscriminantCoefficients.healthy.score
          (FeatureVector.from_metrics ReferenceValues.schizophrenia.metrics) <
        DiscriminantCoefficients.schizophrenia.score
          (FeatureVector.from_metrics ReferenceValues.schizophrenia.metrics)) :=
  not_lt_of_gt healthy_raw_score_gt_schizophrenia_on_reference

/-- C1 — amended.  On the Schizophrenia reference example's metrics
(Table-2 calibration averages built by `ReferenceValues::schizophrenia`),
the raw discriminant score computed with the Healthy coefficient vector is
strictly greater than the raw score computed with the Schizophrenia
coefficient vector. -/
theorem C1_amended_healthy_raw_score_exceeds_schizophrenia :
    DiscriminantCoefficients.schizophrenia.score
        (FeatureVector.from_metrics ReferenceValues.schizophrenia.metrics) <
      DiscriminantCoefficients.healthy.score
        (FeatureVector.from_metrics ReferenceValues.schizophrenia.metrics) :=
  healthy_raw_score_gt_schizophrenia_on_reference

/-- The softmax used by the classifier: every output lies in `[0, 1]` and
the four outputs sum to exactly `1` (real arithmetic model of the `f64`
computation). -/
theorem softmax_scores_props (s : GroupScores) :
    0 ≤ (Classifier.softmax_scores s).healthy ∧
      (Classifier.softmax_scores s).healthy ≤ 1 ∧
    0 ≤ (Classifier.softmax_scores s).schizophrenia ∧
      (Classifier.softmax_scores s).schizophrenia ≤ 1 ∧
    0 ≤ (Classifier.softmax_scores s).personality_disorder ∧
      (Classifier.softmax_scores s).personality_disorder ≤ 1 ∧
    0 ≤ (Classifier.softmax_scores s).bipolar_disorder ∧
      (Classifier.softmax_scores s).bipolar_disorder ≤ 1 ∧
    (Classifier.softmax_scores s).healthy + (Classifier.softmax_scores s).schizophrenia
      + (Classifier.softmax_scores s).personality_disorder
      + (Classifier.softmax_scores s).bipolar_disorder = 1 := by
  simp only [Classifier.softmax_scores]
  set M :=
    max (max (max s.healthy s.schizophrenia) s.personality_disorder) s.bipolar_disorder
  have e1 : (0:ℝ) < Real.exp (s.healthy - M) := Real.exp_pos _
  have e2 : (0:ℝ) < Real.exp (s.schizophrenia - M) := Real.exp_pos _
  have e3 : (0:ℝ) < Real.exp (s.personality_disorder - M) := Real.exp_pos _
  have e4 : (0:ℝ) < Real.exp (s.bipolar_disorder - M) := Real.exp_pos _
  set t := Real.exp (s.healthy - M) + Real.exp (s.schizophrenia - M)
    + Real.exp (s.personality_disorder - M) + Real.exp (s.bipolar_disorder - M) with ht
  have htpos : (0:ℝ) < t := by positivity
  refine ⟨by positivity, ?_, by positivity, ?_, by positivity, ?_, by positivity, ?_, ?_⟩
  · rw [div_le_one htpos]; linarith
  · rw [div_le_one htpos]; linarith
  · rw [div_le_one htpos]; linarith
  · rw [div_le_one htpos]; linarith
  · field_simp

/-- C2.  For every metrics value (hence for the analyzed metrics of every
input text), the `group_scores` of the classification result all lie in
`[0, 1]` and sum to `1` within a tolerance of `1e-9`; the scores are the
numerically-stable softmax (maximum raw score subtracted before
exponentiating) of the four raw discriminant scores. -/
theorem C2_group_scores_in_unit_interval_and_sum_to_one (metrics : TextMetrics) :
    0 ≤ (Classifier.classify metrics).group_scores.healthy ∧
      (Classifier.classify metrics).group_scores.healthy ≤ 1 ∧
    0 ≤ (Classifier.classify metrics).group_scores.schizophrenia ∧
      (Classifier.classify metrics).group_scores.schizophrenia ≤ 1 ∧
    0 ≤ (Classifier.classify metrics).group_scores.personality_disorder ∧
      (Classifier.classify metrics).group_scores.personality_disorder ≤ 1 ∧
    0 ≤ (Classifier.classify metrics).group_scores.bipolar_disorder ∧
      (Classifier.classify metrics).group_scores.bipolar_disorder ≤ 1 ∧
    |(Classifier.classify metrics).group_scores.healthy
        + (Classifier.classify metrics).group_scores.schizophrenia
        + (Classifier.classify metrics).group_scores.personality_disorder
        + (Classifier.classify metrics).group_scores.bipolar_disorder - 1| ≤ 1e-9 := by
  have h := softmax_scores_props
    { healthy := DiscriminantCoefficients.healthy.score
        (FeatureVector.from_metrics metrics)
      schizophrenia := DiscriminantCoefficients.schizophrenia.score
        (FeatureVector.from_metrics metrics)
      personality_disorder := DiscriminantCoefficients.personality_disorder.score
        (FeatureVector.from_metrics metrics)
      bipolar_disorder := DiscriminantCoefficients.bipolar_disorder.score
        (FeatureVector.from_metrics metrics) }
  obtain ⟨h1, h2, h3, h4, h5, h6, h7, h8, h9⟩ := h
  have hgs : (Classifier.classify metrics).group_scores =
      Classifier.softmax_scores
        { healthy := DiscriminantCoefficients.healthy.score
            (FeatureVector.from_metrics metrics)
          schizophrenia := DiscriminantCoefficients.schizophrenia.score
            (FeatureVector.from_metrics metrics)
          personality_disorder := DiscriminantCoefficients.personality_disorder.score
            (FeatureVector.from_metrics metrics)
          bipolar_disorder := DiscriminantCoefficients.bipolar_disorder.score
            (FeatureVector.from_metrics metrics) } := rfl
  rw [hgs]
  refine ⟨h1, h2, h3, h4, h5, h6, h7, h8, ?_⟩
  rw [h9]
  norm_num

/-- C3.  `classify` returns as `primary_diagnosis`/`confidence` exactly the
pair produced by the running-best scan of `get_primary_diagnosis`; the
confidence is the maximum of the four posterior scores, and the selected
group is the first group in the order Healthy, Schizophrenia,
PersonalityDisorder, BipolarDisorder that attains this maximum (ties are
won by the earlier-enumerated group because comparisons use strict
greater-than). -/
theorem C3_primary_diagnosis_is_first_maximal_group :
    (∀ metrics : TextMetrics,
      (Classifier.classify metrics).primary_diagnosis =
          (Classifier.get_primary_diagnosis (Classifier.compute_lda_scores metrics)).1 ∧
        (Classifier.classify metrics).confidence =
          (Classifier.get_primary_diagnosis (Classifier.compute_lda_scores metrics)).2) ∧
    ∀ s : GroupScores,
      (Classifier.get_primary_diagnosis s).2 =
          max (max (max s.healthy s.schizophrenia) s.personality_disorder)
            s.bipolar_disorder ∧
      ((Classifier.get_primary_diagnosis s).1 = DiagnosticGroup.Healthy ↔
        s.schizophrenia ≤ s.healthy ∧ s.personality_disorder ≤ s.healthy ∧
          s.bipolar_disorder ≤ s.healthy) ∧
      ((Classifier.get_primary_diagnosis s).1 = DiagnosticGroup.Schizophrenia ↔
        s.healthy < s.schizophrenia ∧ s.personality_disorder ≤ s.schizophrenia ∧
          s.bipolar_disorder ≤ s.schizophrenia) ∧
      ((Classifier.get_primary_diagnosis s).1 = DiagnosticGroup.PersonalityDisorder ↔
        s.healthy < s.personality_disorder ∧ s.schizophrenia < s.personality_disorder ∧
          s.bipolar_disorder ≤ s.personality_disorder) ∧
      ((Classifier.get_primary_diagnosis s).1 = DiagnosticGroup.BipolarDisorder ↔
        s.healthy < s.bipolar_disorder ∧ s.schizophrenia < s.bipolar_disorder ∧
          s.personality_disorder < s.bipolar_disorder) := by
  refine ⟨fun metrics => ⟨rfl, rfl⟩, fun s => ?_⟩
  unfold Classifier.get_primary_diagnosis
  rcases lt_or_le s.healthy s.schizophrenia with h1 | h1
  · simp only [if_pos h1]
    (try dsimp only)
    rcases lt_or_le s.schizophrenia s.personality_disorder with h2 | h2
    · simp only [if_pos h2]
      (try dsimp only)
      rcases lt_or_le s.personality_disorder s.bipolar_disorder with h3 | h3
      · simp only [if_pos h3]
        refine ⟨by simp only [max_def]; split_ifs <;> linarith, ?_, ?_, ?_, ?_⟩ <;>
          (constructor <;> intro hx <;>
            first
            | exact ⟨by linarith, by linarith, by linarith⟩
            | rfl
            | trivial
            | (exfalso; obtain ⟨a, b, c⟩ := hx; linarith))
      · simp only [if_neg (not_lt.mpr h3)]
        refine ⟨by simp only [max_def]; split_ifs <;> linarith, ?_, ?_, ?_, ?_⟩ <;>
          (constructor <;> intro hx <;>
            first
            | exact ⟨by linarith, by linarith, by linarith⟩
            | rfl
            | trivial
            | (exfalso; obtain ⟨a, b, c⟩ := hx; linarith))
    · simp only [if_neg (not_lt.mpr h2)]
      (try dsimp only)
      rcases lt_or_le s.schizophrenia s.bipolar_disorder with h3 | h3
      · simp only [if_pos h3]
        refine ⟨by simp only [max_def]; split_ifs <;> linarith, ?_, ?_, ?_, ?_⟩ <;>
          (constructor <;> intro hx <;>
            first
            | exact ⟨by linarith, by linarith, by linarith⟩
            | rfl
            | trivial
            | (exfalso; obtain ⟨a, b, c⟩ := hx; linarith))
      · simp only [if_neg (not_lt.mpr h3)]
        refine ⟨by simp only [max_def]; split_ifs <;> linarith, ?_, ?_, ?_, ?_⟩ <;>
          (constructor <;> intro hx <;>
            first
            | exact ⟨by linarith, by linarith, by linarith⟩
            | rfl
            | trivial
            | (exfalso; obtain ⟨a, b, c⟩ := hx; linarith))
  · simp only [if_neg (not_lt.mpr h1)]
    (try dsimp only)
    rcases lt_or_le s.healthy s.personality_disorder with h2 | h2
    · simp only [if_pos h2]
      (try dsimp only)
      rcases lt_or_le s.personality_disorder s.bipolar_disorder with h3 | h3
      · simp only [if_pos h3]
        refine ⟨by simp only [max_def]; split_ifs <;> linarith, ?_, ?_, ?_, ?_⟩ <;>
          (constructor <;> intro hx <;>
            first
            | exact ⟨by linarith, by linarith, by linarith⟩
            | rfl
            | trivial
            | (exfalso; obtain ⟨a, b, c⟩ := hx; linarith))
      · simp only [if_neg (not_lt.mpr h3)]
        refine ⟨by simp only [max_def]; split_ifs <;> linarith, ?_, ?_, ?_, ?_⟩ <;>
          (constructor <;> intro hx <;>
            first
            | exact ⟨by linarith, by linarith, by linarith⟩
            | rfl
            | trivial
            | (exfalso; obtain ⟨a, b, c⟩ := hx; linarith))
    · simp only [if_neg (not_lt.mpr h2)]
      (try dsimp only)
      rcases lt_or_le s.healthy s.bipolar_disorder with h3 | h3
      · simp only [if_pos h3]
        refine ⟨by simp only [max_def]; split_ifs <;> linarith, ?_, ?_, ?_, ?_⟩ <;>
          (constructor <;> intro hx <;>
            first
            | exact ⟨by linarith, by linarith, by linarith⟩
            | rfl
            | trivial
            | (exfalso; obtain ⟨a, b, c⟩ := hx; linarith))
      · simp only [if_neg (not_lt.mpr h3)]
        refine ⟨by simp only [max_def]; split_ifs <;> linarith, ?_, ?_, ?_, ?_⟩ <;>
          (constructor <;> intro hx <;>
            first
            | exact ⟨by linarith, by linarith, by linarith⟩
            | rfl
            | trivial
            | (exfalso; obtain ⟨a, b, c⟩ := hx; linarith))

/-- The clause-count formula exactly as the specification states it:
`base = max(1, min(verb_count, punct_estimate))` with `verb_count` the
number of tokens the tagger marks `Verb` floored at 1 and
`punct_estimate = clause_boundaries + 1` if positive else 1; the result is
`conj_count + 1` when `conj_count > 0` and `base == 1`, else `base`. -/
def clauseCountSpec (lex : Lexicon) (lower : String → String)
    (words : List String) (clause_boundaries : Nat) : Nat :=
  let verb_count := max 1 (words.countP (fun w =>
    decide ((MorphAnalyzer.analyze lex lower w).pos = PartOfSpeech.Verb)))
  let punct_estimate := if 0 < clause_boundaries then clause_boundaries + 1 else 1
  let conj_count := words.countP (fun w =>
    MorphAnalyzer.is_coordinating_conjunction lex lower w
      || MorphAnalyzer.is_subordinating_conjunction lex lower w)
  let base := max 1 (min verb_count punct_estimate)
  if 0 < conj_count ∧ base = 1 then conj_count + 1 else base

/-- C6.  For every sentence string, the clause count estimated by
`analyze_sentence` equals the specification's formula (over the sentence's
extracted words and its count of clause-boundary marks `, ; : - – —`), and
it is always at least 1. -/
theorem C6_estimated_clause_count_formula (lex : Lexicon)
    (lower : String → String) (sentence : String) :
    (SentenceAnalyzer.analyze_sentence lex lower sentence).clause_count =
        clauseCountSpec lex lower (SentenceAnalyzer.extract_words lower sentence)
          (sentence.data.countP isClauseBoundaryMark) ∧
      1 ≤ (SentenceAnalyzer.analyze_sentence lex lower sentence).clause_count := by
  have h : (SentenceAnalyzer.analyze_sentence lex lower sentence).clause_count =
      SentenceAnalyzer.estimate_clause_count lex lower
        (SentenceAnalyzer.extract_words lower sentence)
        (sentence.data.countP isClauseBoundaryMark) := rfl
  rw [h]
  unfold SentenceAnalyzer.estimate_clause_count clauseCountSpec
    SentenceAnalyzer.count_potential_verbs
  dsimp only
  constructor
  · split_ifs <;> omega
  · split_ifs <;> omega

/-- C7.  The sentence type produced by `analyze_sentence` comes from
`determine_sentence_type`, which decides in this exact order: clause count
at most 1 gives `Simple`; otherwise a subordinating conjunction gives
`Complex`; otherwise a coordinating conjunction gives `Compound`;
otherwise `RunOn` — subordination is checked before coordination. -/
theorem C7_sentence_type_decision_order :
    (∀ (lex : Lexicon) (lower : String → String) (sentence : String),
      (SentenceAnalyzer.analyze_sentence lex lower sentence).sentence_type =
        SentenceAnalyzer.determine_sentence_type
          (SentenceAnalyzer.analyze_sentence lex lower sentence).clause_count
          (SentenceAnalyzer.analyze_sentence lex lower sentence).has_coordinating_conjunction
          (SentenceAnalyzer.analyze_sentence lex lower sentence).has_subordinating_conjunction) ∧
    ∀ (clause_count : Nat) (has_coordinating has_subordinating : Bool),
      (clause_count ≤ 1 →
        SentenceAnalyzer.determine_sentence_type clause_count has_coordinating
          has_subordinating = SentenceType.Simple) ∧
      (1 < clause_count → has_subordinating = true →
        SentenceAnalyzer.determine_sentence_type clause_count has_coordinating
          has_subordinating = SentenceType.Complex) ∧
      (1 < clause_count → has_subordinating = false → has_coordinating = true →
        SentenceAnalyzer.determine_sentence_type clause_count has_coordinating
          has_subordinating = SentenceType.Compound) ∧
      (1 < clause_count → has_subordinating = false → has_coordinating = false →
        SentenceAnalyzer.determine_sentence_type clause_count has_coordinating
          has_subordinating = SentenceType.RunOn) := by
  refine ⟨fun lex lower sentence => rfl, fun cc coord sub => ⟨?_, ?_, ?_, ?_⟩⟩
  · intro h
    simp [SentenceAnalyzer.determine_sentence_type, h]
  · intro h hs
    simp [SentenceAnalyzer.determine_sentence_type, hs, Nat.not_le.mpr h]
  · intro h hs hc
    simp [SentenceAnalyzer.determine_sentence_type, hs, hc, Nat.not_le.mpr h]
  · intro h hs hc
    simp [SentenceAnalyzer.determine_sentence_type, hs, hc, Nat.not_le.mpr h]

/-- C7 — witness: the decision rules evaluated at concrete inputs
(two clauses with a subordinating conjunction give `Complex`; one clause
gives `Simple`). -/
theorem C7_sentence_type_decision_order_witness :
    SentenceAnalyzer.determine_sentence_type 2 false true = SentenceType.Complex ∧
      SentenceAnalyzer.determine_sentence_type 1 true true = SentenceType.Simple :=
  ⟨(C7_sentence_type_decision_order.2 2 false true).2.1 (by omega) rfl,
    (C7_sentence_type_decision_order.2 1 true true).1 (by omega)⟩

/-- C8.  Sentence segmentation on the splitter regex `[.!?]+\s*` trims
every fragment, drops empty fragments and preserves order; in particular
`split_into_sentences "A. B! C?"` is exactly `["A", "B", "C"]`, and no
returned sentence is empty. -/
theorem C8_sentence_segmentation (text s : String)
    (hs : s ∈ SentenceAnalyzer.split_into_sentences text) :
    SentenceAnalyzer.split_into_sentences "A. B! C?" = ["A", "B", "C"] ∧ s ≠ "" := by
  refine ⟨by decide, ?_⟩
  unfold SentenceAnalyzer.split_into_sentences at hs
  dsimp only at hs
  split_ifs at hs with h
  · simp at hs
  · rw [List.mem_filter] at hs
    simpa using hs.2

/-- C8 — witness: the first returned sentence of the reference example is
the nonempty fragment `"A"`. -/
theorem C8_sentence_segmentation_witness :
    SentenceAnalyzer.split_into_sentences "A. B! C?" = ["A", "B", "C"] ∧ "A" ≠ "" :=
  C8_sentence_segmentation "A. B! C?" "A" (by decide)

/-- `RsMorphAnalyzer::analyze`'s non-pronoun tail never changes the four
lexicon flags set before it. -/
theorem rs_analyzeTail_preserves_flags (lex : Lexicon)
    (oracle : String → Option RsParse) (word_lower : String) (a : RsWordAnalysis) :
    (RsMorphAnalyzer.analyzeTail lex oracle word_lower a).is_filler = a.is_filler ∧
    (RsMorphAnalyzer.analyzeTail lex oracle word_lower a).is_stop_word = a.is_stop_word ∧
    (RsMorphAnalyzer.analyzeTail lex oracle word_lower a).is_emotion_word =
      a.is_emotion_word ∧
    (RsMorphAnalyzer.analyzeTail lex oracle word_lower a).is_egocentrism_marker =
      a.is_egocentrism_marker := by
  unfold RsMorphAnalyzer.analyzeTail
  rcases oracle word_lower with _ | parse <;> dsimp only <;> split_ifs <;>
    simp_all

/-- A lexicon configuration in which the word `наш` belongs both to the
social-family lexicon and to the possessive-first-person lexicon. -/
def socialPossessiveLexicon : Lexicon :=
  { Lexicon.empty with
    SOCIAL_FAMILY_WORDS := fun w => w == "наш"
    POSSESSIVE_FIRST_PERSON := fun w => w == "наш" }

/-- C9 — counterexample.  In the dictionary-backed tagger the
pronoun-lexicon rule overwrites the social-interaction flag: with a lexicon
in which `наш` is both a social-family word and a possessive-first-person
form, the word is tagged `Pronoun` by the pronoun-lexicon rule and ends
with `is_social_interaction = false`, although it belongs to the
social-interaction lexicon. -/
theorem C9_social_flag_lost_on_pronoun_rule :
    socialPossessiveLexicon.SOCIAL_FAMILY_WORDS "наш" = true ∧
    (RsMorphAnalyzer.analyze socialPossessiveLexicon (fun _ => none) id "наш").pos =
      PartOfSpeech.Pronoun ∧
    (RsMorphAnalyzer.analyze socialPossessiveLexicon (fun _ => none) id "наш").pronoun_person =
      some PronounPerson.First ∧
    (RsMorphAnalyzer.analyze socialPossessiveLexicon
      (fun _ => none) id "наш").is_social_interaction = false := by
  refine ⟨by decide, by decide, by decide, by decide⟩

/-- C9 — amended.  The filler, stop-word, emotion and egocentrism flags are
computed from the lexicons independently of the POS outcome in both
taggers, and the heuristic tagger's social-interaction flag is likewise
independent of POS; but in the dictionary-backed tagger, whenever the
pronoun-lexicon rule determines the part of speech, `is_social_interaction`
is overwritten with `person = First ∧ number = Plural`, discarding any
social-family-lexicon membership. -/
theorem C9_amended_flag_independence (lex : Lexicon)
    (oracle : String → Option RsParse) (lower : String → String) (w : String) :
    ((RsMorphAnalyzer.analyze lex oracle lower w).is_filler =
        lex.FILLER_WORDS (lower w) ∧
      (RsMorphAnalyzer.analyze lex oracle lower w).is_stop_word =
        lex.STOP_WORDS (lower w) ∧
      (RsMorphAnalyzer.analyze lex oracle lower w).is_emotion_word =
        lex.EMOTION_WORDS (lower w) ∧
      (RsMorphAnalyzer.analyze lex oracle lower w).is_egocentrism_marker =
        (lex.FIRST_PERSON_SINGULAR (lower w) || lex.POSSESSIVE_FIRST_PERSON (lower w))) ∧
    ((MorphAnalyzer.analyze lex lower w).is_filler = lex.FILLER_WORDS (lower w) ∧
      (MorphAnalyzer.analyze lex lower w).is_stop_word = lex.STOP_WORDS (lower w) ∧
      (MorphAnalyzer.analyze lex lower w).is_emotion_word = lex.EMOTION_WORDS (lower w) ∧
      (MorphAnalyzer.analyze lex lower w).is_egocentrism_marker =
        MorphAnalyzer.is_egocentrism_marker lex (lower w) ∧
      (MorphAnalyzer.analyze lex lower w).is_social_interaction =
        MorphAnalyzer.is_social_interaction_word lex (lower w)) ∧
    ∀ person number,
      RsMorphAnalyzer.check_pronoun_dictionaries lex (lower w) = some (person, number) →
        (RsMorphAnalyzer.analyze lex oracle lower w).is_social_interaction =
          (decide (person = PronounPerson.First) && decide (number = PronounNumber.Plural)) := by
  refine ⟨?_, ?_, ?_⟩
  · unfold RsMorphAnalyzer.analyze
    rcases hpron : RsMorphAnalyzer.check_pronoun_dictionaries lex (lower w) with _ | ⟨p, n⟩ <;>
      simp only [hpron]
    · have h := rs_analyzeTail_preserves_flags lex oracle (lower w)
        { RsWordAnalysis.new (lower w) with
          is_filler := lex.FILLER_WORDS (lower w)
          is_stop_word := lex.STOP_WORDS (lower w)
          is_emotion_word := lex.EMOTION_WORDS (lower w)
          is_egocentrism_marker :=
            lex.FIRST_PERSON_SINGULAR (lower w) || lex.POSSESSIVE_FIRST_PERSON (lower w)
          is_social_interaction := lex.SOCIAL_FAMILY_WORDS (lower w) }
      exact ⟨h.1, h.2.1, h.2.2.1, h.2.2.2⟩
    · refine ⟨?_, ?_, ?_, ?_⟩ <;> trivial
  · unfold MorphAnalyzer.analyze
    rcases hpron : MorphAnalyzer.get_pronoun_info lex (lower w) with _ | ⟨p, n⟩ <;>
      rcases hverb : MorphAnalyzer.analyze_verb lex (lower w) with _ | ⟨t, f, pt⟩ <;>
      simp only [hpron, hverb] <;> (try dsimp only) <;> split_ifs <;>
      simp [WordAnalysis.new]
  · intro person number hpron
    unfold RsMorphAnalyzer.analyze
    simp only [hpron]

/-- The flag-counter stage never changes the first-person-singular
counter. -/
theorem countFlags_first_person_singular (analysis : RsWordAnalysis)
    (c : WordCounters) :
    (TextAnalyzer.countFlags analysis c).first_person_singular =
      c.first_person_singular := by
  unfold TextAnalyzer.countFlags
  dsimp only
  split_ifs <;> rfl

/-- C10.  In metric aggregation, a token tagged `Pronoun` whose person is
`Reflexive` (any number), or whose person is `First` with number `Unknown`
(possessive first-person forms), increments the first-person-singular
pronoun counter; and the classifier's first-person-singular feature is
taken from the `first_person_singular_pronouns` percentage, so it includes
these reflexive and possessive forms. -/
theorem C10_reflexive_and_possessive_count_as_first_person_singular
    (analysis : RsWordAnalysis) (c : WordCounters) (w : String) :
    (analysis.pos = PartOfSpeech.Pronoun →
      analysis.pronoun_person = some PronounPerson.Reflexive →
        (TextAnalyzer.countWordWith analysis w c).first_person_singular =
          c.first_person_singular + 1) ∧
    (analysis.pos = PartOfSpeech.Pronoun →
      analysis.pronoun_person = some PronounPerson.First →
      analysis.pronoun_number = some PronounNumber.Unknown →
        (TextAnalyzer.countWordWith analysis w c).first_person_singular =
          c.first_person_singular + 1) ∧
    (∀ lex oracle lower,
      TextAnalyzer.countWord lex oracle lower c w =
        TextAnalyzer.countWordWith (RsMorphAnalyzer.analyze lex oracle lower w) w c) ∧
    ∀ metrics : TextMetrics,
      (FeatureVector.from_metrics metrics).first_person_sing =
        metrics.first_person_singular_pronouns := by
  refine ⟨?_, ?_, fun lex oracle lower => rfl, fun metrics => rfl⟩
  · intro hpos hperson
    unfold TextAnalyzer.countWordWith
    rw [countFlags_first_person_singular]
    unfold TextAnalyzer.countPos
    simp only [hpos]
    rcases hnum : analysis.pronoun_number with _ | n <;>
      simp only [TextAnalyzer.count_pronoun, hperson, hnum]
  · intro hpos hperson hnum
    unfold TextAnalyzer.countWordWith
    rw [countFlags_first_person_singular]
    unfold TextAnalyzer.countPos
    simp only [hpos]
    simp only [TextAnalyzer.count_pronoun, hperson, hnum]

/-- A lexicon configuration whose possessive-first-person list holds the
reflexive form `себя` and the possessive form `мой`. -/
def possessiveReflexiveLexicon : Lexicon :=
  { Lexicon.empty with
    POSSESSIVE_FIRST_PERSON := fun w => w == "себя" || w == "мой" }

/-- C10 — witness: with a lexicon whose possessive-first-person list holds
`себя` (tagged reflexive) and `мой` (tagged possessive first-person with
number `Unknown`), counting either word bumps the first-person-singular
counter from 0 to 1. -/
theorem C10_reflexive_and_possessive_witness :
    (TextAnalyzer.countWordWith
        (RsMorphAnalyzer.analyze possessiveReflexiveLexicon (fun _ => none) id "себя")
        "себя" WordCounters.new).first_person_singular =
      WordCounters.new.first_person_singular + 1 ∧
    (TextAnalyzer.countWordWith
        (RsMorphAnalyzer.analyze possessiveReflexiveLexicon (fun _ => none) id "мой")
        "мой" WordCounters.new).first_person_singular =
      WordCounters.new.first_person_singular + 1 :=
  ⟨(C10_reflexive_and_possessive_count_as_first_person_singular
      (RsMorphAnalyzer.analyze possessiveReflexiveLexicon (fun _ => none) id "себя")
      WordCounters.new "себя").1 (by decide) (by decide),
    (C10_reflexive_and_possessive_count_as_first_person_singular
      (RsMorphAnalyzer.analyze possessiveReflexiveLexicon (fun _ => none) id "мой")
      WordCounters.new "мой").2.1 (by decide) (by decide) (by decide)⟩

/-- `count_pronoun` touches only the six pronoun counters, each by at most
one. -/
theorem count_pronoun_bounds (a : RsWordAnalysis) (c : WordCounters) :
      (TextAnalyzer.count_pronoun a c).nouns = c.nouns ∧
      (TextAnalyzer.count_pronoun a c).adjectives = c.adjectives ∧
      (TextAnalyzer.count_pronoun a c).adverbs = c.adverbs ∧
      (TextAnalyzer.count_pronoun a c).prepositions = c.prepositions ∧
      (TextAnalyzer.count_pronoun a c).conjunctions = c.conjunctions ∧
      c.first_person_singular ≤ (TextAnalyzer.count_pronoun a c).first_person_singular ∧ (TextAnalyzer.count_pronoun a c).first_person_singular ≤ c.first_person_singular + 1 ∧
      c.first_person_plural ≤ (TextAnalyzer.count_pronoun a c).first_person_plural ∧ (TextAnalyzer.count_pronoun a c).first_person_plural ≤ c.first_person_plural + 1 ∧
      c.second_person_singular ≤ (TextAnalyzer.count_pronoun a c).second_person_singular ∧ (TextAnalyzer.count_pronoun a c).second_person_singular ≤ c.second_person_singular + 1 ∧
      c.second_person_plural ≤ (TextAnalyzer.count_pronoun a c).second_person_plural ∧ (TextAnalyzer.count_pronoun a c).second_person_plural ≤ c.second_person_plural + 1 ∧
      c.third_person_singular ≤ (TextAnalyzer.count_pronoun a c).third_person_singular ∧ (TextAnalyzer.count_pronoun a c).third_person_singular ≤ c.third_person_singular + 1 ∧
      c.third_person_plural ≤ (TextAnalyzer.count_pronoun a c).third_person_plural ∧ (TextAnalyzer.count_pronoun a c).third_person_plural ≤ c.third_person_plural + 1 ∧
      (TextAnalyzer.count_pronoun a c).past_tense = c.past_tense ∧
      (TextAnalyzer.count_pronoun a c).present_tense = c.present_tense ∧
      (TextAnalyzer.count_pronoun a c).future_tense = c.future_tense ∧
      (TextAnalyzer.count_pronoun a c).infinitives = c.infinitives ∧
      (TextAnalyzer.count_pronoun a c).non_finite_forms = c.non_finite_forms ∧
      (TextAnalyzer.count_pronoun a c).active_voice = c.active_voice ∧
      (TextAnalyzer.count_pronoun a c).external_predicates = c.external_predicates ∧
      (TextAnalyzer.count_pronoun a c).internal_predicates = c.internal_predicates ∧
      (TextAnalyzer.count_pronoun a c).filler_words = c.filler_words ∧
      (TextAnalyzer.count_pronoun a c).stop_words = c.stop_words ∧
      (TextAnalyzer.count_pronoun a c).emotion_words = c.emotion_words ∧
      (TextAnalyzer.count_pronoun a c).social_interaction_words = c.social_interaction_words ∧
      (TextAnalyzer.count_pronoun a c).egocentrism_markers = c.egocentrism_markers := by
  unfold TextAnalyzer.count_pronoun
  rcases hpp : a.pronoun_person with _ | p <;>
    rcases hpn : a.pronoun_number with _ | n <;>
    (try cases p) <;> (try cases n) <;> (try dsimp only) <;> omega

/-- The tense tally touches only the four tense counters, each by at most
one. -/
theorem countTense_bounds (a : RsWordAnalysis) (c : WordCounters) :
      (TextAnalyzer.countTense a c).nouns = c.nouns ∧
      (TextAnalyzer.countTense a c).adjectives = c.adjectives ∧
      (TextAnalyzer.countTense a c).adverbs = c.adverbs ∧
      (TextAnalyzer.countTense a c).prepositions = c.prepositions ∧
      (TextAnalyzer.countTense a c).conjunctions = c.conjunctions ∧
      (TextAnalyzer.countTense a c).first_person_singular = c.first_person_singular ∧
      (TextAnalyzer.countTense a c).first_person_plural = c.first_person_plural ∧
      (TextAnalyzer.countTense a c).second_person_singular = c.second_person_singular ∧
      (TextAnalyzer.countTense a c).second_person_plural = c.second_person_plural ∧
      (TextAnalyzer.countTense a c).third_person_singular = c.third_person_singular ∧
      (TextAnalyzer.countTense a c).third_person_plural = c.third_person_plural ∧
      c.past_tense ≤ (TextAnalyzer.countTense a c).past_tense ∧ (TextAnalyzer.countTense a c).past_tense ≤ c.past_tense + 1 ∧
      c.present_tense ≤ (TextAnalyzer.countTense a c).present_tense ∧ (TextAnalyzer.countTense a c).present_tense ≤ c.present_tense + 1 ∧
      c.future_tense ≤ (TextAnalyzer.countTense a c).future_tense ∧ (TextAnalyzer.countTense a c).future_tense ≤ c.future_tense + 1 ∧
      c.infinitives ≤ (TextAnalyzer.countTense a c).infinitives ∧ (TextAnalyzer.countTense a c).infinitives ≤ c.infinitives + 1 ∧
      (TextAnalyzer.countTense a c).non_finite_forms = c.non_finite_forms ∧
      (TextAnalyzer.countTense a c).active_voice = c.active_voice ∧
      (TextAnalyzer.countTense a c).external_predicates = c.external_predicates ∧
      (TextAnalyzer.countTense a c).internal_predicates = c.internal_predicates ∧
      (TextAnalyzer.countTense a c).filler_words = c.filler_words ∧
      (TextAnalyzer.countTense a c).stop_words = c.stop_words ∧
      (TextAnalyzer.countTense a c).emotion_words = c.emotion_words ∧
      (TextAnalyzer.countTense a c).social_interaction_words = c.social_interaction_words ∧
      (TextAnalyzer.countTense a c).egocentrism_markers = c.egocentrism_markers := by
  unfold TextAnalyzer.countTense
  rcases h : a.verb_tense with _ | t <;> (try cases t) <;> (try dsimp only) <;> omega

/-- The non-finite-form tally touches only the non-finite counter, by at
most one. -/
theorem countForm_bounds (a : RsWordAnalysis) (c : WordCounters) :
      (TextAnalyzer.countForm a c).nouns = c.nouns ∧
      (TextAnalyzer.countForm a c).adjectives = c.adjectives ∧
      (TextAnalyzer.countForm a c).adverbs = c.adverbs ∧
      (TextAnalyzer.countForm a c).prepositions = c.prepositions ∧
      (TextAnalyzer.countForm a c).conjunctions = c.conjunctions ∧
      (TextAnalyzer.countForm a c).first_person_singular = c.first_person_singular ∧
      (TextAnalyzer.countForm a c).first_person_plural = c.first_person_plural ∧
      (TextAnalyzer.countForm a c).second_person_singular = c.second_person_singular ∧
      (TextAnalyzer.countForm a c).second_person_plural = c.second_person_plural ∧
      (TextAnalyzer.countForm a c).third_person_singular = c.third_person_singular ∧
      (TextAnalyzer.countForm a c).third_person_plural = c.third_person_plural ∧
      (TextAnalyzer.countForm a c).past_tense = c.past_tense ∧
      (TextAnalyzer.countForm a c).present_tense = c.present_tense ∧
      (TextAnalyzer.countForm a c).future_tense = c.future_tense ∧
      (TextAnalyzer.countForm a c).infinitives = c.infinitives ∧
      c.non_finite_forms ≤ (TextAnalyzer.countForm a c).non_finite_forms ∧ (TextAnalyzer.countForm a c).non_finite_forms ≤ c.non_finite_forms + 1 ∧
      (TextAnalyzer.countForm a c).active_voice = c.active_voice ∧
      (TextAnalyzer.countForm a c).external_predicates = c.external_predicates ∧
      (TextAnalyzer.countForm a c).internal_predicates = c.internal_predicates ∧
      (TextAnalyzer.countForm a c).filler_words = c.filler_words ∧
      (TextAnalyzer.countForm a c).stop_words = c.stop_words ∧
      (TextAnalyzer.countForm a c).emotion_words = c.emotion_words ∧
      (TextAnalyzer.countForm a c).social_interaction_words = c.social_interaction_words ∧
      (TextAnalyzer.countForm a c).egocentrism_markers = c.egocentrism_markers := by
  unfold TextAnalyzer.countForm
  rcases h : a.verb_form with _ | f <;> (try cases f) <;> (try dsimp only) <;> omega

/-- The predicate-type tally touches only the two predicate counters, each
by at most one. -/
theorem countPredicate_bounds (a : RsWordAnalysis) (c : WordCounters) :
      (TextAnalyzer.countPredicate a c).nouns = c.nouns ∧
      (TextAnalyzer.countPredicate a c).adjectives = c.adjectives ∧
      (TextAnalyzer.countPredicate a c).adverbs = c.adverbs ∧
      (TextAnalyzer.countPredicate a c).prepositions = c.prepositions ∧
      (TextAnalyzer.countPredicate a c).conjunctions = c.conjunctions ∧
      (TextAnalyzer.countPredicate a c).first_person_singular = c.first_person_singular ∧
      (TextAnalyzer.countPredicate a c).first_person_plural = c.first_person_plural ∧
      (TextAnalyzer.countPredicate a c).second_person_singular = c.second_person_singular ∧
      (TextAnalyzer.countPredicate a c).second_person_plural = c.second_person_plural ∧
      (TextAnalyzer.countPredicate a c).third_person_singular = c.third_person_singular ∧
      (TextAnalyzer.countPredicate a c).third_person_plural = c.third_person_plural ∧
      (TextAnalyzer.countPredicate a c).past_tense = c.past_tense ∧
      (TextAnalyzer.countPredicate a c).present_tense = c.present_tense ∧
      (TextAnalyzer.countPredicate a c).future_tense = c.future_tense ∧
      (TextAnalyzer.countPredicate a c).infinitives = c.infinitives ∧
      (TextAnalyzer.countPredicate a c).non_finite_forms = c.non_finite_forms ∧
      (TextAnalyzer.countPredicate a c).active_voice = c.active_voice ∧
      c.external_predicates ≤ (TextAnalyzer.countPredicate a c).external_predicates ∧ (TextAnalyzer.countPredicate a c).external_predicates ≤ c.external_predicates + 1 ∧
      c.internal_predicates ≤ (TextAnalyzer.countPredicate a c).internal_predicates ∧ (TextAnalyzer.countPredicate a c).internal_predicates ≤ c.internal_predicates + 1 ∧
      (TextAnalyzer.countPredicate a c).filler_words = c.filler_words ∧
      (TextAnalyzer.countPredicate a c).stop_words = c.stop_words ∧
      (TextAnalyzer.countPredicate a c).emotion_words = c.emotion_words ∧
      (TextAnalyzer.countPredicate a c).social_interaction_words = c.social_interaction_words ∧
      (TextAnalyzer.countPredicate a c).egocentrism_markers = c.egocentrism_markers := by
  unfold TextAnalyzer.countPredicate
  rcases h : a.predicate_type with _ | pt <;> (try cases pt) <;> (try dsimp only) <;> omega

/-- The active-voice tally touches only the active-voice counter, by at
most one. -/
theorem countActive_bounds (w : String) (c : WordCounters) :
      (TextAnalyzer.countActive w c).nouns = c.nouns ∧
      (TextAnalyzer.countActive w c).adjectives = c.adjectives ∧
      (TextAnalyzer.countActive w c).adverbs = c.adverbs ∧
      (TextAnalyzer.countActive w c).prepositions = c.prepositions ∧
      (TextAnalyzer.countActive w c).conjunctions = c.conjunctions ∧
      (TextAnalyzer.countActive w c).first_person_singular = c.first_person_singular ∧
      (TextAnalyzer.countActive w c).first_person_plural = c.first_person_plural ∧
      (TextAnalyzer.countActive w c).second_person_singular = c.second_person_singular ∧
      (TextAnalyzer.countActive w c).second_person_plural = c.second_person_plural ∧
      (TextAnalyzer.countActive w c).third_person_singular = c.third_person_singular ∧
      (TextAnalyzer.countActive w c).third_person_plural = c.third_person_plural ∧
      (TextAnalyzer.countActive w c).past_tense = c.past_tense ∧
      (TextAnalyzer.countActive w c).present_tense = c.present_tense ∧
      (TextAnalyzer.countActive w c).future_tense = c.future_tense ∧
      (TextAnalyzer.countActive w c).infinitives = c.infinitives ∧
      (TextAnalyzer.countActive w c).non_finite_forms = c.non_finite_forms ∧
      c.active_voice ≤ (TextAnalyzer.countActive w c).active_voice ∧ (TextAnalyzer.countActive w c).active_voice ≤ c.active_voice + 1 ∧
      (TextAnalyzer.countActive w c).external_predicates = c.external_predicates ∧
      (TextAnalyzer.countActive w c).internal_predicates = c.internal_predicates ∧
      (TextAnalyzer.countActive w c).filler_words = c.filler_words ∧
      (TextAnalyzer.countActive w c).stop_words = c.stop_words ∧
      (TextAnalyzer.countActive w c).emotion_words = c.emotion_words ∧
      (TextAnalyzer.countActive w c).social_interaction_words = c.social_interaction_words ∧
      (TextAnalyzer.countActive w c).egocentrism_markers = c.egocentrism_markers := by
  unfold TextAnalyzer.countActive
  split_ifs <;> (try dsimp only) <;> omega

/-- `count_verb` touches only the verb-side counters, each by at most one
(each individual counter is touched by at most one of its four tallies). -/
theorem count_verb_bounds (a : RsWordAnalysis) (w : String) (c : WordCounters) :
      (TextAnalyzer.count_verb a w c).nouns = c.nouns ∧
      (TextAnalyzer.count_verb a w c).adjectives = c.adjectives ∧
      (TextAnalyzer.count_verb a w c).adverbs = c.adverbs ∧
      (TextAnalyzer.count_verb a w c).prepositions = c.prepositions ∧
      (TextAnalyzer.count_verb a w c).conjunctions = c.conjunctions ∧
      (TextAnalyzer.count_verb a w c).first_person_singular = c.first_person_singular ∧
      (TextAnalyzer.count_verb a w c).first_person_plural = c.first_person_plural ∧
      (TextAnalyzer.count_verb a w c).second_person_singular = c.second_person_singular ∧
      (TextAnalyzer.count_verb a w c).second_person_plural = c.second_person_plural ∧
      (TextAnalyzer.count_verb a w c).third_person_singular = c.third_person_singular ∧
      (TextAnalyzer.count_verb a w c).third_person_plural = c.third_person_plural ∧
      c.past_tense ≤ (TextAnalyzer.count_verb a w c).past_tense ∧ (TextAnalyzer.count_verb a w c).past_tense ≤ c.past_tense + 1 ∧
      c.present_tense ≤ (TextAnalyzer.count_verb a w c).present_tense ∧ (TextAnalyzer.count_verb a w c).present_tense ≤ c.present_tense + 1 ∧
      c.future_tense ≤ (TextAnalyzer.count_verb a w c).future_tense ∧ (TextAnalyzer.count_verb a w c).future_tense ≤ c.future_tense + 1 ∧
      c.infinitives ≤ (TextAnalyzer.count_verb a w c).infinitives ∧ (TextAnalyzer.count_verb a w c).infinitives ≤ c.infinitives + 1 ∧
      c.non_finite_forms ≤ (TextAnalyzer.count_verb a w c).non_finite_forms ∧ (TextAnalyzer.count_verb a w c).non_finite_forms ≤ c.non_finite_forms + 1 ∧
      c.active_voice ≤ (TextAnalyzer.count_verb a w c).active_voice ∧ (TextAnalyzer.count_verb a w c).active_voice ≤ c.active_voice + 1 ∧
      c.external_predicates ≤ (TextAnalyzer.count_verb a w c).external_predicates ∧ (TextAnalyzer.count_verb a w c).external_predicates ≤ c.external_predicates + 1 ∧
      c.internal_predicates ≤ (TextAnalyzer.count_verb a w c).internal_predicates ∧ (TextAnalyzer.count_verb a w c).internal_predicates ≤ c.internal_predicates + 1 ∧
      (TextAnalyzer.count_verb a w c).filler_words = c.filler_words ∧
      (TextAnalyzer.count_verb a w c).stop_words = c.stop_words ∧
      (TextAnalyzer.count_verb a w c).emotion_words = c.emotion_words ∧
      (TextAnalyzer.count_verb a w c).social_interaction_words = c.social_interaction_words ∧
      (TextAnalyzer.count_verb a w c).egocentrism_markers = c.egocentrism_markers := by
  have h1 := countTense_bounds a c
  have h2 := countForm_bounds a (TextAnalyzer.countTense a c)
  have h3 := countPredicate_bounds a
    (TextAnalyzer.countForm a (TextAnalyzer.countTense a c))
  have h4 := countActive_bounds w
    (TextAnalyzer.countPredicate a
      (TextAnalyzer.countForm a (TextAnalyzer.countTense a c)))
  unfold TextAnalyzer.count_verb
  omega

/-- The POS dispatch of the counting loop bumps each POS-side counter by at
most one and leaves the five special-category counters unchanged. -/
theorem countPos_bounds (a : RsWordAnalysis) (w : String) (c : WordCounters) :
      c.nouns ≤ (TextAnalyzer.countPos a w c).nouns ∧ (TextAnalyzer.countPos a w c).nouns ≤ c.nouns + 1 ∧
      c.adjectives ≤ (TextAnalyzer.countPos a w c).adjectives ∧ (TextAnalyzer.countPos a w c).adjectives ≤ c.adjectives + 1 ∧
      c.adverbs ≤ (TextAnalyzer.countPos a w c).adverbs ∧ (TextAnalyzer.countPos a w c).adverbs ≤ c.adverbs + 1 ∧
      c.prepositions ≤ (TextAnalyzer.countPos a w c).prepositions ∧ (TextAnalyzer.countPos a w c).prepositions ≤ c.prepositions + 1 ∧
      c.conjunctions ≤ (TextAnalyzer.countPos a w c).conjunctions ∧ (TextAnalyzer.countPos a w c).conjunctions ≤ c.conjunctions + 1 ∧
      c.first_person_singular ≤ (TextAnalyzer.countPos a w c).first_person_singular ∧ (TextAnalyzer.countPos a w c).first_person_singular ≤ c.first_person_singular + 1 ∧
      c.first_person_plural ≤ (TextAnalyzer.countPos a w c).first_person_plural ∧ (TextAnalyzer.countPos a w c).first_person_plural ≤ c.first_person_plural + 1 ∧
      c.second_person_singular ≤ (TextAnalyzer.countPos a w c).second_person_singular ∧ (TextAnalyzer.countPos a w c).second_person_singular ≤ c.second_person_singular + 1 ∧
      c.second_person_plural ≤ (TextAnalyzer.countPos a w c).second_person_plural ∧ (TextAnalyzer.countPos a w c).second_person_plural ≤ c.second_person_plural + 1 ∧
      c.third_person_singular ≤ (TextAnalyzer.countPos a w c).third_person_singular ∧ (TextAnalyzer.countPos a w c).third_person_singular ≤ c.third_person_singular + 1 ∧
      c.third_person_plural ≤ (TextAnalyzer.countPos a w c).third_person_plural ∧ (TextAnalyzer.countPos a w c).third_person_plural ≤ c.third_person_plural + 1 ∧
      c.past_tense ≤ (TextAnalyzer.countPos a w c).past_tense ∧ (TextAnalyzer.countPos a w c).past_tense ≤ c.past_tense + 1 ∧
      c.present_tense ≤ (TextAnalyzer.countPos a w c).present_tense ∧ (TextAnalyzer.countPos a w c).present_tense ≤ c.present_tense + 1 ∧
      c.future_tense ≤ (TextAnalyzer.countPos a w c).future_tense ∧ (TextAnalyzer.countPos a w c).future_tense ≤ c.future_tense + 1 ∧
      c.infinitives ≤ (TextAnalyzer.countPos a w c).infinitives ∧ (TextAnalyzer.countPos a w c).infinitives ≤ c.infinitives + 1 ∧
      c.non_finite_forms ≤ (TextAnalyzer.countPos a w c).non_finite_forms ∧ (TextAnalyzer.countPos a w c).non_finite_forms ≤ c.non_finite_forms + 1 ∧
      c.active_voice ≤ (TextAnalyzer.countPos a w c).active_voice ∧ (TextAnalyzer.countPos a w c).active_voice ≤ c.active_voice + 1 ∧
      c.external_predicates ≤ (TextAnalyzer.countPos a w c).external_predicates ∧ (TextAnalyzer.countPos a w c).external_predicates ≤ c.external_predicates + 1 ∧
      c.internal_predicates ≤ (TextAnalyzer.countPos a w c).internal_predicates ∧ (TextAnalyzer.countPos a w c).internal_predicates ≤ c.internal_predicates + 1 ∧
      (TextAnalyzer.countPos a w c).filler_words = c.filler_words ∧
      (TextAnalyzer.countPos a w c).stop_words = c.stop_words ∧
      (TextAnalyzer.countPos a w c).emotion_words = c.emotion_words ∧
      (TextAnalyzer.countPos a w c).social_interaction_words = c.social_interaction_words ∧
      (TextAnalyzer.countPos a w c).egocentrism_markers = c.egocentrism_markers := by
  unfold TextAnalyzer.countPos
  rcases hpos : a.pos <;> (try dsimp only) <;>
    first
    | omega
    | (have h := count_pronoun_bounds a c; omega)
    | (have h := count_verb_bounds a w c; omega)

/-- The flag stage of the counting loop bumps each special-category counter
by at most one and leaves the POS-side counters unchanged. -/
theorem countFlags_bounds (a : RsWordAnalysis) (c : WordCounters) :
      (TextAnalyzer.countFlags a c).nouns = c.nouns ∧
      (TextAnalyzer.countFlags a c).adjectives = c.adjectives ∧
      (TextAnalyzer.countFlags a c).adverbs = c.adverbs ∧
      (TextAnalyzer.countFlags a c).prepositions = c.prepositions ∧
      (TextAnalyzer.countFlags a c).conjunctions = c.conjunctions ∧
      (TextAnalyzer.countFlags a c).first_person_singular = c.first_person_singular ∧
      (TextAnalyzer.countFlags a c).first_person_plural = c.first_person_plural ∧
      (TextAnalyzer.countFlags a c).second_person_singular = c.second_person_singular ∧
      (TextAnalyzer.countFlags a c).second_person_plural = c.second_person_plural ∧
      (TextAnalyzer.countFlags a c).third_person_singular = c.third_person_singular ∧
      (TextAnalyzer.countFlags a c).third_person_plural = c.third_person_plural ∧
      (TextAnalyzer.countFlags a c).past_tense = c.past_tense ∧
      (TextAnalyzer.countFlags a c).present_tense = c.present_tense ∧
      (TextAnalyzer.countFlags a c).future_tense = c.future_tense ∧
      (TextAnalyzer.countFlags a c).infinitives = c.infinitives ∧
      (TextAnalyzer.countFlags a c).non_finite_forms = c.non_finite_forms ∧
      (TextAnalyzer.countFlags a c).active_voice = c.active_voice ∧
      (TextAnalyzer.countFlags a c).external_predicates = c.external_predicates ∧
      (TextAnalyzer.countFlags a c).internal_predicates = c.internal_predicates ∧
      c.filler_words ≤ (TextAnalyzer.countFlags a c).filler_words ∧ (TextAnalyzer.countFlags a c).filler_words ≤ c.filler_words + 1 ∧
      c.stop_words ≤ (TextAnalyzer.countFlags a c).stop_words ∧ (TextAnalyzer.countFlags a c).stop_words ≤ c.stop_words + 1 ∧
      c.emotion_words ≤ (TextAnalyzer.countFlags a c).emotion_words ∧ (TextAnalyzer.countFlags a c).emotion_words ≤ c.emotion_words + 1 ∧
      c.social_interaction_words ≤ (TextAnalyzer.countFlags a c).social_interaction_words ∧ (TextAnalyzer.countFlags a c).social_interaction_words ≤ c.social_interaction_words + 1 ∧
      c.egocentrism_markers ≤ (TextAnalyzer.countFlags a c).egocentrism_markers ∧ (TextAnalyzer.countFlags a c).egocentrism_markers ≤ c.egocentrism_markers + 1 := by
  unfold TextAnalyzer.countFlags
  dsimp only
  split_ifs <;> (try dsimp only) <;> omega

/-- One iteration of the counting loop bumps every counter by at most
one. -/
theorem countWordWith_bounds (a : RsWordAnalysis) (w : String) (c : WordCounters) :
      (TextAnalyzer.countWordWith a w c).nouns ≤ c.nouns + 1 ∧
      (TextAnalyzer.countWordWith a w c).adjectives ≤ c.adjectives + 1 ∧
      (TextAnalyzer.countWordWith a w c).adverbs ≤ c.adverbs + 1 ∧
      (TextAnalyzer.countWordWith a w c).prepositions ≤ c.prepositions + 1 ∧
      (TextAnalyzer.countWordWith a w c).conjunctions ≤ c.conjunctions + 1 ∧
      (TextAnalyzer.countWordWith a w c).first_person_singular ≤ c.first_person_singular + 1 ∧
      (TextAnalyzer.countWordWith a w c).first_person_plural ≤ c.first_person_plural + 1 ∧
      (TextAnalyzer.countWordWith a w c).second_person_singular ≤ c.second_person_singular + 1 ∧
      (TextAnalyzer.countWordWith a w c).second_person_plural ≤ c.second_person_plural + 1 ∧
      (TextAnalyzer.countWordWith a w c).third_person_singular ≤ c.third_person_singular + 1 ∧
      (TextAnalyzer.countWordWith a w c).third_person_plural ≤ c.third_person_plural + 1 ∧
      (TextAnalyzer.countWordWith a w c).past_tense ≤ c.past_tense + 1 ∧
      (TextAnalyzer.countWordWith a w c).present_tense ≤ c.present_tense + 1 ∧
      (TextAnalyzer.countWordWith a w c).future_tense ≤ c.future_tense + 1 ∧
      (TextAnalyzer.countWordWith a w c).infinitives ≤ c.infinitives + 1 ∧
      (TextAnalyzer.countWordWith a w c).non_finite_forms ≤ c.non_finite_forms + 1 ∧
      (TextAnalyzer.countWordWith a w c).active_voice ≤ c.active_voice + 1 ∧
      (TextAnalyzer.countWordWith a w c).external_predicates ≤ c.external_predicates + 1 ∧
      (TextAnalyzer.countWordWith a w c).internal_predicates ≤ c.internal_predicates + 1 ∧
      (TextAnalyzer.countWordWith a w c).filler_words ≤ c.filler_words + 1 ∧
      (TextAnalyzer.countWordWith a w c).stop_words ≤ c.stop_words + 1 ∧
      (TextAnalyzer.countWordWith a w c).emotion_words ≤ c.emotion_words + 1 ∧
      (TextAnalyzer.countWordWith a w c).social_interaction_words ≤ c.social_interaction_words + 1 ∧
      (TextAnalyzer.countWordWith a w c).egocentrism_markers ≤ c.egocentrism_markers + 1 := by
  have h1 := countPos_bounds a w c
  have h2 := countFlags_bounds a (TextAnalyzer.countPos a w c)
  unfold TextAnalyzer.countWordWith
  omega

/-- Folding the counting loop over a word list bumps every counter by at
most the number of words. -/
theorem foldl_countWord_bounds (lex : Lexicon) (oracle : String → Option RsParse)
    (lower : String → String) (words : List String) (c : WordCounters) :
      (words.foldl (TextAnalyzer.countWord lex oracle lower) c).nouns ≤ c.nouns + words.length ∧
      (words.foldl (TextAnalyzer.countWord lex oracle lower) c).adjectives ≤ c.adjectives + words.length ∧
      (words.foldl (TextAnalyzer.countWord lex oracle lower) c).adverbs ≤ c.adverbs + words.length ∧
      (words.foldl (TextAnalyzer.countWord lex oracle lower) c).prepositions ≤ c.prepositions + words.length ∧
      (words.foldl (TextAnalyzer.countWord lex oracle lower) c).conjunctions ≤ c.conjunctions + words.length ∧
      (words.foldl (TextAnalyzer.countWord lex oracle lower) c).first_person_singular ≤ c.first_person_singular + words.length ∧
      (words.foldl (TextAnalyzer.countWord lex oracle lower) c).first_person_plural ≤ c.first_person_plural + words.length ∧
      (words.foldl (TextAnalyzer.countWord lex oracle lower) c).second_person_singular ≤ c.second_person_singular + words.length ∧
      (words.foldl (TextAnalyzer.countWord lex oracle lower) c).second_person_plural ≤ c.second_person_plural + words.length ∧
      (words.foldl (TextAnalyzer.countWord lex oracle lower) c).third_person_singular ≤ c.third_person_singular + words.length ∧
      (words.foldl (TextAnalyzer.countWord lex oracle lower) c).third_person_plural ≤ c.third_person_plural + words.length ∧
      (words.foldl (TextAnalyzer.countWord lex oracle lower) c).past_tense ≤ c.past_tense + words.length ∧
      (words.foldl (TextAnalyzer.countWord lex oracle lower) c).present_tense ≤ c.present_tense + words.length ∧
      (words.foldl (TextAnalyzer.countWord lex oracle lower) c).future_tense ≤ c.future_tense + words.length ∧
      (words.foldl (TextAnalyzer.countWord lex oracle lower) c).infinitives ≤ c.infinitives + words.length ∧
      (words.foldl (TextAnalyzer.countWord lex oracle lower) c).non_finite_forms ≤ c.non_finite_forms + words.length ∧
      (words.foldl (TextAnalyzer.countWord lex oracle lower) c).active_voice ≤ c.active_voice + words.length ∧
      (words.foldl (TextAnalyzer.countWord lex oracle lower) c).external_predicates ≤ c.external_predicates + words.length ∧
      (words.foldl (TextAnalyzer.countWord lex oracle lower) c).internal_predicates ≤ c.internal_predicates + words.length ∧
      (words.foldl (TextAnalyzer.countWord lex oracle lower) c).filler_words ≤ c.filler_words + words.length ∧
      (words.foldl (TextAnalyzer.countWord lex oracle lower) c).stop_words ≤ c.stop_words + words.length ∧
      (words.foldl (TextAnalyzer.countWord lex oracle lower) c).emotion_words ≤ c.emotion_words + words.length ∧
      (words.foldl (TextAnalyzer.countWord lex oracle lower) c).social_interaction_words ≤ c.social_interaction_words + words.length ∧
      (words.foldl (TextAnalyzer.countWord lex oracle lower) c).egocentrism_markers ≤ c.egocentrism_markers + words.length := by
  induction words generalizing c with
  | nil => simp
  | cons w ws ih =>
    have hstep := countWordWith_bounds (RsMorphAnalyzer.analyze lex oracle lower w) w c
    have htail := ih (TextAnalyzer.countWord lex oracle lower c w)
    have hcw : TextAnalyzer.countWord lex oracle lower c w =
        TextAnalyzer.countWordWith (RsMorphAnalyzer.analyze lex oracle lower w) w c := rfl
    rw [hcw] at htail
    simp only [List.foldl_cons, List.length_cons, hcw]
    omega

/-- `TextMetrics::percentage` of a count bounded by the total lies in
`[0, 100]`. -/
theorem percentage_bounds (count total : Nat) (h : count ≤ total) :
    0 ≤ TextMetrics.percentage count total ∧
      TextMetrics.percentage count total ≤ 100 := by
  unfold TextMetrics.percentage
  split_ifs with ht
  · norm_num
  · have htpos : (0 : ℝ) < (total : ℝ) := by
      exact_mod_cast Nat.pos_of_ne_zero ht
    have hle : ((count : ℕ) : ℝ) ≤ (total : ℝ) := Nat.cast_le.mpr h
    have hdiv : ((count : ℕ) : ℝ) / (total : ℝ) ≤ 1 := by
      rw [div_le_one htpos]
      exact hle
    constructor
    · positivity
    · nlinarith

/-- C4.  When token extraction finds no token, `analyze` short-circuits and
returns the all-zero metrics (`total_words = 0`, every other field at its
zero default); the empty string and the whitespace-only string `"   "` are
such inputs; and this is the only short-circuit: with at least one token,
`total_words` is the token count and sentence analysis runs. -/
theorem C4_zero_token_short_circuit (lex : Lexicon)
    (oracle : String → Option RsParse) (lower : String → String) (text : String) :
    (TextAnalyzer.extract_words text = [] →
      TextAnalyzer.analyze lex oracle lower text = TextMetrics.new) ∧
    TextAnalyzer.extract_words "" = [] ∧
    TextAnalyzer.extract_words "   " = [] ∧
    (TextAnalyzer.extract_words text ≠ [] →
      (TextAnalyzer.analyze lex oracle lower text).total_words =
          (TextAnalyzer.extract_words text).length ∧
        (TextAnalyzer.analyze lex oracle lower text).total_sentences =
          (SentenceAnalyzer.analyze_text lex lower text).length) := by
  refine ⟨?_, by decide, by decide, ?_⟩
  · intro h
    unfold TextAnalyzer.analyze
    rw [if_pos (by rw [h]; rfl)]
    rw [h]
    rfl
  · intro h
    have hlen : ¬ (TextAnalyzer.extract_words text).length = 0 := by
      simpa [List.length_eq_zero] using h
    unfold TextAnalyzer.analyze
    rw [if_neg hlen]
    exact ⟨rfl, rfl⟩

/-- C4 — witness: `analyze` on the empty string and on a whitespace-only
string yields the all-zero metrics. -/
theorem C4_zero_token_short_circuit_witness :
    TextAnalyzer.analyze Lexicon.empty (fun _ => none) id "" = TextMetrics.new ∧
      TextAnalyzer.analyze Lexicon.empty (fun _ => none) id "   " = TextMetrics.new :=
  ⟨(C4_zero_token_short_circuit Lexicon.empty (fun _ => none) id "").1 (by decide),
    (C4_zero_token_short_circuit Lexicon.empty (fun _ => none) id "   ").1 (by decide)⟩

/-- C5.  Every percentage field of the metrics returned by `analyze` lies
in `[0, 100]` — every per-word counter is bounded by the number of words,
the distinct-word count is bounded by the word count, and
`percentage count 0 = 0`. -/
theorem C5_percentage_fields_in_range (lex : Lexicon)
    (oracle : String → Option RsParse) (lower : String → String) (text : String) :
    (∀ count, TextMetrics.percentage count 0 = 0) ∧
      (0 ≤ (TextAnalyzer.analyze lex oracle lower text).lexical_diversity_index ∧
        (TextAnalyzer.analyze lex oracle lower text).lexical_diversity_index ≤ 100) ∧
      (0 ≤ (TextAnalyzer.analyze lex oracle lower text).nouns ∧
        (TextAnalyzer.analyze lex oracle lower text).nouns ≤ 100) ∧
      (0 ≤ (TextAnalyzer.analyze lex oracle lower text).adjectives ∧
        (TextAnalyzer.analyze lex oracle lower text).adjectives ≤ 100) ∧
      (0 ≤ (TextAnalyzer.analyze lex oracle lower text).adverbs ∧
        (TextAnalyzer.analyze lex oracle lower text).adverbs ≤ 100) ∧
      (0 ≤ (TextAnalyzer.analyze lex oracle lower text).prepositions ∧
        (TextAnalyzer.analyze lex oracle lower text).prepositions ≤ 100) ∧
      (0 ≤ (TextAnalyzer.analyze lex oracle lower text).conjunctions ∧
        (TextAnalyzer.analyze lex oracle lower text).conjunctions ≤ 100) ∧
      (0 ≤ (TextAnalyzer.analyze lex oracle lower text).first_person_singular_pronouns ∧
        (TextAnalyzer.analyze lex oracle lower text).first_person_singular_pronouns ≤ 100) ∧
      (0 ≤ (TextAnalyzer.analyze lex oracle lower text).first_person_plural_pronouns ∧
        (TextAnalyzer.analyze lex oracle lower text).first_person_plural_pronouns ≤ 100) ∧
      (0 ≤ (TextAnalyzer.analyze lex oracle lower text).second_person_singular_pronouns ∧
        (TextAnalyzer.analyze lex oracle lower text).second_person_singular_pronouns ≤ 100) ∧
      (0 ≤ (TextAnalyzer.analyze lex oracle lower text).second_person_plural_pronouns ∧
        (TextAnalyzer.analyze lex oracle lower text).second_person_plural_pronouns ≤ 100) ∧
      (0 ≤ (TextAnalyzer.analyze lex oracle lower text).third_person_singular_pronouns ∧
        (TextAnalyzer.analyze lex oracle lower text).third_person_singular_pronouns ≤ 100) ∧
      (0 ≤ (TextAnalyzer.analyze lex oracle lower text).third_person_plural_pronouns ∧
        (TextAnalyzer.analyze lex oracle lower text).third_person_plural_pronouns ≤ 100) ∧
      (0 ≤ (TextAnalyzer.analyze lex oracle lower text).past_tense_verbs ∧
        (TextAnalyzer.analyze lex oracle lower text).past_tense_verbs ≤ 100) ∧
      (0 ≤ (TextAnalyzer.analyze lex oracle lower text).present_tense_verbs ∧
        (TextAnalyzer.analyze lex oracle lower text).present_tense_verbs ≤ 100) ∧
      (0 ≤ (TextAnalyzer.analyze lex oracle lower text).future_tense_verbs ∧
        (TextAnalyzer.analyze lex oracle lower text).future_tense_verbs ≤ 100) ∧
      (0 ≤ (TextAnalyzer.analyze lex oracle lower text).infinitives ∧
        (TextAnalyzer.analyze lex oracle lower text).infinitives ≤ 100) ∧
      (0 ≤ (TextAnalyzer.analyze lex oracle lower text).non_finite_verb_forms ∧
        (TextAnalyzer.analyze lex oracle lower text).non_finite_verb_forms ≤ 100) ∧
      (0 ≤ (TextAnalyzer.analyze lex oracle lower text).active_voice_verbs ∧
        (TextAnalyzer.analyze lex oracle lower text).active_voice_verbs ≤ 100) ∧
      (0 ≤ (TextAnalyzer.analyze lex oracle lower text).external_predicates ∧
        (TextAnalyzer.analyze lex oracle lower text).external_predicates ≤ 100) ∧
      (0 ≤ (TextAnalyzer.analyze lex oracle lower text).internal_predicates ∧
        (TextAnalyzer.analyze lex oracle lower text).internal_predicates ≤ 100) ∧
      (0 ≤ (TextAnalyzer.analyze lex oracle lower text).filler_words_index ∧
        (TextAnalyzer.analyze lex oracle lower text).filler_words_index ≤ 100) ∧
      (0 ≤ (TextAnalyzer.analyze lex oracle lower text).stop_words_index ∧
        (TextAnalyzer.analyze lex oracle lower text).stop_words_index ≤ 100) ∧
      (0 ≤ (TextAnalyzer.analyze lex oracle lower text).emotion_words ∧
        (TextAnalyzer.analyze lex oracle lower text).emotion_words ≤ 100) ∧
      (0 ≤ (TextAnalyzer.analyze lex oracle lower text).social_interaction_words ∧
        (TextAnalyzer.analyze lex oracle lower text).social_interaction_words ≤ 100) ∧
      (0 ≤ (TextAnalyzer.analyze lex oracle lower text).egocentrism_index ∧
        (TextAnalyzer.analyze lex oracle lower text).egocentrism_index ≤ 100) := by
  refine ⟨fun count => by simp [TextMetrics.percentage], ?_⟩
  by_cases h : (TextAnalyzer.extract_words text).length = 0
  · unfold TextAnalyzer.analyze
    rw [if_pos h]
    norm_num [TextMetrics.new]
  · unfold TextAnalyzer.analyze
    rw [if_neg h]
    unfold TextAnalyzer.analyzeFull TextAnalyzer.counters_to_metrics
    dsimp only
    have hb := foldl_countWord_bounds lex oracle lower
      (TextAnalyzer.extract_words text) WordCounters.new
    have hd : ((TextAnalyzer.extract_words text).map lower).dedup.length ≤
        (TextAnalyzer.extract_words text).length := by
      calc ((TextAnalyzer.extract_words text).map lower).dedup.length ≤
          ((TextAnalyzer.extract_words text).map lower).length :=
            (List.dedup_sublist _).length_le
        _ = (TextAnalyzer.extract_words text).length := List.length_map _ _
    exact ⟨percentage_bounds _ _ hd,
      percentage_bounds _ _ (by simpa [WordCounters.new] using hb.1),
      percentage_bounds _ _ (by simpa [WordCounters.new] using hb.2.1),
      percentage_bounds _ _ (by simpa [WordCounters.new] using hb.2.2.1),
      percentage_bounds _ _ (by simpa [WordCounters.new] using hb.2.2.2.1),
      percentage_bounds _ _ (by simpa [WordCounters.new] using hb.2.2.2.2.1),
      percentage_bounds _ _ (by simpa [WordCounters.new] using hb.2.2.2.2.2.1),
      percentage_bounds _ _ (by simpa [WordCounters.new] using hb.2.2.2.2.2.2.1),
      percentage_bounds _ _ (by simpa [WordCounters.new] using hb.2.2.2.2.2.2.2.1),
      percentage_bounds _ _ (by simpa [WordCounters.new] using hb.2.2.2.2.2.2.2.2.1),
      percentage_bounds _ _ (by simpa [WordCounters.new] using hb.2.2.2.2.2.2.2.2.2.1),
      percentage_bounds _ _ (by simpa [WordCounters.new] using hb.2.2.2.2.2.2.2.2.2.2.1),
      percentage_bounds _ _ (by simpa [WordCounters.new] using hb.2.2.2.2.2.2.2.2.2.2.2.1),
      percentage_bounds _ _ (by simpa [WordCounters.new] using hb.2.2.2.2.2.2.2.2.2.2.2.2.1),
      percentage_bounds _ _ (by simpa [WordCounters.new] using hb.2.2.2.2.2.2.2.2.2.2.2.2.2.1),
      percentage_bounds _ _ (by simpa [WordCounters.new] using hb.2.2.2.2.2.2.2.2.2.2.2.2.2.2.1),
      percentage_bounds _ _ (by simpa [WordCounters.new] using hb.2.2.2.2.2.2.2.2.2.2.2.2.2.2.2.1),
      percentage_bounds _ _ (by simpa [WordCounters.new] using hb.2.2.2.2.2.2.2.2.2.2.2.2.2.2.2.2.1),
      percentage_bounds _ _ (by simpa [WordCounters.new] using hb.2.2.2.2.2.2.2.2.2.2.2.2.2.2.2.2.2.1),
      percentage_bounds _ _ (by simpa [WordCounters.new] using hb.2.2.2.2.2.2.2.2.2.2.2.2.2.2.2.2.2.2.1),
      percentage_bounds _ _ (by simpa [WordCounters.new] using hb.2.2.2.2.2.2.2.2.2.2.2.2.2.2.2.2.2.2.2.1),
      percentage_bounds _ _ (by simpa [WordCounters.new] using hb.2.2.2.2.2.2.2.2.2.2.2.2.2.2.2.2.2.2.2.2.1),
      percentage_bounds _ _ (by simpa [WordCounters.new] using hb.2.2.2.2.2.2.2.2.2.2.2.2.2.2.2.2.2.2.2.2.2.1),
      percentage_bounds _ _ (by simpa [WordCounters.new] using hb.2.2.2.2.2.2.2.2.2.2.2.2.2.2.2.2.2.2.2.2.2.2.1),
      percentage_bounds _ _ (by simpa [WordCounters.new] using hb.2.2.2.2.2.2.2.2.2.2.2.2.2.2.2.2.2.2.2.2.2.2.2)⟩

/-- C9 — witness for the amended theorem: with the lexicon in which `наш`
is both a social-family word and a possessive-first-person form, the
pronoun-lexicon rule fires with person `First` and number `Unknown`, and
the social-interaction flag is recomputed to that branch's
`person = First ∧ number = Plural` value (false). -/
theorem C9_amended_flag_independence_witness :
    (RsMorphAnalyzer.analyze socialPossessiveLexicon
        (fun _ => none) id "наш").is_social_interaction =
      (decide (PronounPerson.First = PronounPerson.First)
        && decide (PronounNumber.Unknown = PronounNumber.Plural)) :=
  (C9_amended_flag_independence socialPossessiveLexicon
    (fun _ => none) id "наш").2.2 PronounPerson.First PronounNumber.Unknown (by decide)
